import Mathlib

/-!
# Arduino Lint: configuration, platform.txt validation, schema diagnostics

A shallow embedding of

* `internal/configuration/configuration.go` (`Initialize`, `RuleModes` and the
  package-level configuration variables),
* `internal/project/platform/platformtxt/platformtxt.go` (`Validate`),
* the generic matcher `schema.ValidationErrorMatch`, as far as
  `internal/rule/schema/schema_test.go` and the specification describe it.

Go package-level variables become fields of an explicit state that every
function takes and returns. A Go `error` is an `Option String` (`none` is
`nil`). A Go map is a function from keys to optional values.
-/

/-! ## Go maps and strings -/

/-- Go map: `m k = none` when the key is absent. -/
abbrev GoMap (κ ν : Type) := κ → Option ν

namespace GoMap

/-- Result of `make(map[K]V)`. -/
def empty {κ ν : Type} : GoMap κ ν := fun _ => none

/-- Go statement `m[k] = v`. -/
def set {κ ν : Type} [DecidableEq κ] (m : GoMap κ ν) (k : κ) (v : ν) : GoMap κ ν :=
  fun k' => if k' = k then some v else m k'

/-- Go expression `m[k]`: the zero value of the value type when the key is absent. -/
def get {κ ν : Type} (zero : ν) (m : GoMap κ ν) (k : κ) : ν :=
  (m k).getD zero

end GoMap

/-- Go `error`: `none` is `nil`, `some msg` an error with that text. -/
abbrev GoError := Option String

namespace strings

/-- Go `strings.HasPrefix`. -/
def HasPrefix (s pre : String) : Bool := pre.data.isPrefixOf s.data

/-- Go `strings.ToLower`, on the ASCII letters. -/
def ToLower (s : String) : String := String.mk (s.data.map Char.toLower)

end strings

namespace strconv

/-- Go `strconv.ParseBool`: accepts 1, t, T, TRUE, true, True, 0, f, F, FALSE,
false, False; any other value returns `false` and an error. -/
def ParseBool (str : String) : Bool × GoError :=
  if str = "1" ∨ str = "t" ∨ str = "T" ∨ str = "TRUE" ∨ str = "true" ∨ str = "True" then
    (true, none)
  else if str = "0" ∨ str = "f" ∨ str = "F" ∨ str = "FALSE" ∨ str = "false" ∨ str = "False" then
    (false, none)
  else
    (false, some ("strconv.ParseBool: parsing \"" ++ str ++ "\": invalid syntax"))

end strconv

/-! ## Packages `rulemode`, `projecttype`, `outputformat`, `paths`, `logrus` -/

namespace rulemode

/-- Rule modes (`rulemode.Type`): the constants `configuration.go` names, and
any further value of the enumeration. -/
inductive Type_ where
  | Strict
  | Specification
  | Permissive
  | LibraryManagerSubmission
  | LibraryManagerIndexed
  | LibraryManagerIndexing
  | Official
  | Other (n : Nat)
  deriving DecidableEq, Repr

/-- Modelled from the spec: `rulemode.ComplianceModeFromString` (package
`rulemode` is not among the sources). The compliance selector is a single-valued
enum over the tiers strict / specification / permissive: a recognised value
selects its tier and leaves the other two false; any other value is rejected.
The result is (strict, specification, permissive, error). The spec does not
give the accepted spellings; the model takes the tier names of its glossary. -/
def ComplianceModeFromString (complianceModeString : String) : Bool × Bool × Bool × GoError :=
  if complianceModeString = "strict" then (true, false, false, none)
  else if complianceModeString = "specification" then (false, true, false, none)
  else if complianceModeString = "permissive" then (false, false, true, none)
  else (false, false, false,
    some ("No matching compliance mode for string " ++ complianceModeString))

/-- Modelled from the spec: `rulemode.LibraryManagerModeFromString` (package
`rulemode` is not among the sources). The library-manager selector follows the same
single-select discipline over the axes submission / indexed-update / indexing;
any other value is rejected. The result is (submission, indexed, indexing,
error). The spec does not give the accepted spellings; the model takes its
axis names. -/
def LibraryManagerModeFromString (libraryManagerModeString : String) :
    Bool × Bool × Bool × GoError :=
  if libraryManagerModeString = "submission" then (true, false, false, none)
  else if libraryManagerModeString = "indexed-update" then (false, true, false, none)
  else if libraryManagerModeString = "indexing" then (false, false, true, none)
  else (false, false, false,
    some ("No matching Library Manager mode for string " ++ libraryManagerModeString))

end rulemode

namespace projecttype

/-- Project types (`projecttype.Type`), an integer enumeration whose declaration is not among the sources. -/
abbrev Type_ := Nat

end projecttype

namespace outputformat

/-- Output formats (`outputformat.Type`), an integer enumeration whose declaration is not among the sources. -/
abbrev Type_ := Nat

end outputformat

namespace rulemode

/-- Modelled from the spec: `rulemode.Modes` (package `rulemode` is not among
the sources), the contract `resolve(defaults, overrides, projectType)`. Per rule
mode: a rule mode the defaults table does not mention for the project type is
not in the result (it reads false) regardless of override; otherwise the value
is the override if one exists, else the project-type default. -/
def Modes (defaultRuleModes : GoMap projecttype.Type_ (GoMap Type_ Bool))
    (customRuleModes : GoMap Type_ Bool) (superprojectType : projecttype.Type_) :
    GoMap Type_ Bool :=
  fun key =>
    match GoMap.get GoMap.empty defaultRuleModes superprojectType key with
    | none => none
    | some defaultValue =>
      match customRuleModes key with
      | some customRuleModeValue => some customRuleModeValue
      | none => some defaultValue

end rulemode

namespace paths

/-- A `*paths.Path` of go-paths-helper, identified with its path string. -/
abbrev Path := String

/-- Library call `paths.New(path)`. -/
def New (path : String) : Path := path

/-- Type `paths.PathList`. -/
abbrev PathList := List Path

/-- Method `PathList.Add`. -/
def PathList.Add (p : PathList) (path : Path) : PathList := p ++ [path]

/-- Method `PathList.AddIfMissing`: adds the path unless the list contains it. -/
def PathList.AddIfMissing (p : PathList) (path : Path) : PathList :=
  if p.contains path then p else PathList.Add p path

end paths

namespace logrus

/-- Log levels (`logrus.Level`). -/
abbrev Level := Nat

/-- The two formatters `logFormatFromString` returns. -/
inductive Formatter where
  | TextFormatter
  | JSONFormatter
  deriving DecidableEq, Repr

/-- Where logrus writes: its initial output, `defaultLogOutput` or `ioutil.Discard`. -/
inductive Output where
  | initial
  | defaultLogOutput
  | Discard
  deriving DecidableEq, Repr

end logrus

/-! ## Package `configuration` -/

namespace configuration

/-- The flag values a `*pflag.FlagSet` holds; `Initialize` ignores the error
of `GetString` and `GetBool`, so a flag that is not defined reads as the zero value. -/
structure FlagSet where
  GetString : String → String
  GetBool : String → Bool

/-- The process environment and file system `Initialize` consults. -/
structure Host where
  /-- Call `os.LookupEnv`. -/
  LookupEnv : String → Option String
  /-- Call `os.Getwd`. -/
  Getwd : Except String String
  /-- Method `Path.ExistCheck`. -/
  ExistCheck : paths.Path → Except String Bool

/-- Parsers of packages that are not among the sources and that no property
here is about. -/
structure Parsers where
  /-- Function `outputformat.FromString`. -/
  outputformatFromString : String → outputformat.Type_ × GoError
  /-- Function `projecttype.FromString`. -/
  projecttypeFromString : String → projecttype.Type_ × GoError
  /-- Function `logrus.ParseLevel`. -/
  ParseLevel : String → logrus.Level × GoError

/-- The package-level variables of `configuration`, and the logrus settings
`Initialize` changes. -/
structure State where
  customRuleModes : GoMap rulemode.Type_ Bool
  superprojectTypeFilter : projecttype.Type_
  recursive : Bool
  outputFormat : outputformat.Type_
  reportFilePath : Option paths.Path
  verbose : Bool
  versionMode : Bool
  targetPaths : paths.PathList
  logFormatter : Option logrus.Formatter
  logLevel : Option logrus.Level
  logOutput : logrus.Output

/-- The variables as declared: `customRuleModes = make(map[rulemode.Type]bool)`,
every other variable at its zero value. -/
def State.init : State where
  customRuleModes := GoMap.empty
  superprojectTypeFilter := 0
  recursive := false
  outputFormat := 0
  reportFilePath := none
  verbose := false
  versionMode := false
  targetPaths := []
  logFormatter := none
  logLevel := none
  logOutput := logrus.Output.initial

/-- How a block of statements of `Initialize` ends: execution goes on with the
next statement, the function returns, or it panics. -/
inductive Ctl where
  | next (s : State)
  | ret (s : State) (err : GoError)
  | panic (s : State) (msg : String)

/-- Sequencing of statements: the rest runs only when the first part fell through. -/
def Ctl.andThen (c : Ctl) (rest : State → Ctl) : Ctl :=
  match c with
  | Ctl.next s => rest s
  | Ctl.ret s err => Ctl.ret s err
  | Ctl.panic s msg => Ctl.panic s msg

/-- State in which a block of statements ends. -/
def Ctl.state : Ctl → State
  | Ctl.next s => s
  | Ctl.ret s _ => s
  | Ctl.panic s _ => s

/-- What a call of `Initialize` gives its caller. -/
inductive Outcome where
  | returned (err : GoError)
  | panicked (msg : String)
  deriving DecidableEq, Repr

/-- Function `logFormatFromString`. -/
def logFormatFromString (logFormatString : String) : Option logrus.Formatter × GoError :=
  if strings.ToLower logFormatString = "text" then (some logrus.Formatter.TextFormatter, none)
  else if strings.ToLower logFormatString = "json" then (some logrus.Formatter.JSONFormatter, none)
  else (none, some ("No matching log format for string " ++ logFormatString))

/-- Function `EnableLogging`. -/
def EnableLogging (enable : Bool) (s : State) : State :=
  if enable then { s with logOutput := logrus.Output.defaultLogOutput }
  else { s with logOutput := logrus.Output.Discard }

/-- Lines 38-44 of `Initialize`: the `--compliance` flag. The three map entries
are assigned from the parser's results before the error is checked. -/
def complianceStep (flags : FlagSet) (s : State) : Ctl :=
  let complianceString := flags.GetString "compliance"
  if complianceString ≠ "" then
    let r := rulemode.ComplianceModeFromString complianceString
    let s1 := { s with customRuleModes :=
      (((s.customRuleModes.set rulemode.Type_.Strict r.1).set
        rulemode.Type_.Specification r.2.1).set
        rulemode.Type_.Permissive r.2.2.1) }
    if r.2.2.2 ≠ none then
      Ctl.ret s1 (some ("--compliance flag value " ++ complianceString ++ " not valid"))
    else Ctl.next s1
  else Ctl.next s

/-- Lines 46-50 of `Initialize`: the `--format` flag. -/
def formatStep (p : Parsers) (flags : FlagSet) (s : State) : Ctl :=
  let outputFormatString := flags.GetString "format"
  let r := p.outputformatFromString outputFormatString
  let s1 := { s with outputFormat := r.1 }
  if r.2 ≠ none then
    Ctl.ret s1 (some ("--format flag value " ++ outputFormatString ++ " not valid"))
  else Ctl.next s1

/-- Lines 52-58 of `Initialize`: the `--library-manager` flag. -/
def libraryManagerStep (flags : FlagSet) (s : State) : Ctl :=
  let libraryManagerModeString := flags.GetString "library-manager"
  if libraryManagerModeString ≠ "" then
    let r := rulemode.LibraryManagerModeFromString libraryManagerModeString
    let s1 := { s with customRuleModes :=
      (((s.customRuleModes.set rulemode.Type_.LibraryManagerSubmission r.1).set
        rulemode.Type_.LibraryManagerIndexed r.2.1).set
        rulemode.Type_.LibraryManagerIndexing r.2.2.1) }
    if r.2.2.2 ≠ none then
      Ctl.ret s1
        (some ("--library-manager flag value " ++ libraryManagerModeString ++ " not valid"))
    else Ctl.next s1
  else Ctl.next s

/-- Lines 60-70 of `Initialize`: `ARDUINO_LINT_LIBRARY_MANAGER_INDEXING`. -/
def libraryManagerIndexingStep (h : Host) (s : State) : Ctl :=
  match h.LookupEnv "ARDUINO_LINT_LIBRARY_MANAGER_INDEXING" with
  | some libraryManagerModeString =>
    let r := strconv.ParseBool libraryManagerModeString
    if r.2 ≠ none then
      Ctl.ret s (some ("ARDUINO_LINT_LIBRARY_MANAGER_INDEXING environment variable value "
        ++ libraryManagerModeString ++ " not valid"))
    else if r.1 then
      Ctl.next { s with customRuleModes :=
        (((s.customRuleModes.set rulemode.Type_.LibraryManagerSubmission false).set
          rulemode.Type_.LibraryManagerIndexed false).set
          rulemode.Type_.LibraryManagerIndexing true) }
    else Ctl.next s
  | none => Ctl.next s

/-- Lines 72-79 of `Initialize`: `ARDUINO_LINT_LOG_FORMAT`. -/
def logFormatStep (h : Host) (s : State) : Ctl :=
  match h.LookupEnv "ARDUINO_LINT_LOG_FORMAT" with
  | some logFormatString =>
    let r := logFormatFromString logFormatString
    if r.2 ≠ none then
      Ctl.ret s (some ("--log-format flag value " ++ logFormatString ++ " not valid"))
    else Ctl.next (EnableLogging true { s with logFormatter := r.1 })
  | none => Ctl.next s

/-- Lines 81-88 of `Initialize`: `ARDUINO_LINT_LOG_LEVEL`. -/
def logLevelStep (p : Parsers) (h : Host) (s : State) : Ctl :=
  match h.LookupEnv "ARDUINO_LINT_LOG_LEVEL" with
  | some logLevelString =>
    let r := p.ParseLevel logLevelString
    if r.2 ≠ none then
      Ctl.ret s (some ("--log-level flag value " ++ logLevelString ++ " not valid"))
    else Ctl.next (EnableLogging true { s with logLevel := some r.1 })
  | none => Ctl.next s

/-- Lines 90-94 of `Initialize`: the `--project-type` flag. -/
def projectTypeStep (p : Parsers) (flags : FlagSet) (s : State) : Ctl :=
  let superprojectTypeFilterString := flags.GetString "project-type"
  let r := p.projecttypeFromString superprojectTypeFilterString
  let s1 := { s with superprojectTypeFilter := r.1 }
  if r.2 ≠ none then
    Ctl.ret s1
      (some ("--project-type flag value " ++ superprojectTypeFilterString ++ " not valid"))
  else Ctl.next s1

/-- Lines 96-103 of `Initialize`: `--recursive`, `--report-file`, `--verbose`, `--version`. -/
def plainFlagsStep (flags : FlagSet) (s : State) : Ctl :=
  Ctl.next { s with
    recursive := flags.GetBool "recursive"
    reportFilePath := some (paths.New (flags.GetString "report-file"))
    verbose := flags.GetBool "verbose"
    versionMode := flags.GetBool "version" }

/-- Lines 114-124 of `Initialize`: the loop over `projectPaths`. -/
def targetPathLoop (h : Host) : List String → State → Ctl
  | [], s => Ctl.next s
  | projectPath :: rest, s =>
    let targetPath := paths.New projectPath
    match h.ExistCheck targetPath with
    | Except.error err =>
      Ctl.ret s (some ("Unable to process PROJECT_PATH argument value " ++ targetPath
        ++ ": " ++ err))
    | Except.ok targetPathExists =>
      if targetPathExists = false then
        Ctl.ret s (some ("PROJECT_PATH argument " ++ targetPath ++ " does not exist"))
      else
        targetPathLoop h rest
          { s with targetPaths := paths.PathList.AddIfMissing s.targetPaths targetPath }

/-- Lines 105-125 of `Initialize`: the target paths. -/
def targetPathsStep (h : Host) (projectPaths : List String) (s : State) : Ctl :=
  let s1 := { s with targetPaths := [] }
  if projectPaths.length = 0 then
    match h.Getwd with
    | Except.error err => Ctl.panic s1 err
    | Except.ok workingDirectoryPath =>
      Ctl.next { s1 with
        targetPaths := paths.PathList.Add s1.targetPaths (paths.New workingDirectoryPath) }
  else targetPathLoop h projectPaths s1

/-- Lines 127-132 of `Initialize`: `ARDUINO_LINT_OFFICIAL`. The map entry is
assigned from the result of `strconv.ParseBool` before the error is checked. -/
def officialStep (h : Host) (s : State) : Ctl :=
  match h.LookupEnv "ARDUINO_LINT_OFFICIAL" with
  | some officialModeString =>
    let r := strconv.ParseBool officialModeString
    let s1 := { s with customRuleModes := s.customRuleModes.set rulemode.Type_.Official r.1 }
    if r.2 ≠ none then
      Ctl.ret s1 (some ("ARDUINO_LINT_OFFICIAL environment variable value "
        ++ officialModeString ++ " not valid"))
    else Ctl.next s1
  | none => Ctl.next s

/-- Body of `Initialize`, statement by statement; the closing debug log entry
changes no variable and `return nil` ends it. -/
def Initialize.body (p : Parsers) (h : Host) (flags : FlagSet) (projectPaths : List String)
    (s : State) : Ctl :=
  (complianceStep flags s).andThen fun s =>
  (formatStep p flags s).andThen fun s =>
  (libraryManagerStep flags s).andThen fun s =>
  (libraryManagerIndexingStep h s).andThen fun s =>
  (logFormatStep h s).andThen fun s =>
  (logLevelStep p h s).andThen fun s =>
  (projectTypeStep p flags s).andThen fun s =>
  (plainFlagsStep flags s).andThen fun s =>
  (targetPathsStep h projectPaths s).andThen fun s =>
  (officialStep h s).andThen fun s =>
  Ctl.ret s none

/-- Function `Initialize`: the configuration variables after the call, and
what the call gives its caller. -/
def Initialize (p : Parsers) (h : Host) (flags : FlagSet) (projectPaths : List String)
    (s : State) : State × Outcome :=
  match Initialize.body p h flags projectPaths s with
  | Ctl.next s1 => (s1, Outcome.returned none)
  | Ctl.ret s1 err => (s1, Outcome.returned err)
  | Ctl.panic s1 msg => (s1, Outcome.panicked msg)

/-- Function `RuleModes`; the table `defaultRuleModes` is not among the sources. -/
def RuleModes (defaultRuleModes : GoMap projecttype.Type_ (GoMap rulemode.Type_ Bool))
    (s : State) (superprojectType : projecttype.Type_) : GoMap rulemode.Type_ Bool :=
  rulemode.Modes defaultRuleModes s.customRuleModes superprojectType

/-- Function `TargetPaths`. -/
def TargetPaths (s : State) : paths.PathList := s.targetPaths

/-- One call of `Initialize`: its host, flags and arguments. -/
structure Call where
  host : Host
  flags : FlagSet
  projectPaths : List String

/-- The configuration variables after a sequence of `Initialize` calls in one process. -/
def runCalls (p : Parsers) (s : State) : List Call → State
  | [] => s
  | c :: rest => runCalls p (Initialize p c.host c.flags c.projectPaths s).1 rest

end configuration

namespace configuration

/-- Parsers that accept every value. -/
def Parsers.lenient : Parsers where
  outputformatFromString := fun _ => (0, none)
  projecttypeFromString := fun _ => (0, none)
  ParseLevel := fun _ => (0, none)

/-- A flag set in which only the string flags listed are set. -/
def FlagSet.ofList (l : List (String × String)) : FlagSet where
  GetString := fun name => (l.lookup name).getD ""
  GetBool := fun _ => false

/-- A host with the environment variables listed, working directory `/work`,
on which every path exists. -/
def Host.ofEnv (l : List (String × String)) : Host where
  LookupEnv := fun name => l.lookup name
  Getwd := Except.ok "/work"
  ExistCheck := fun _ => Except.ok true

/-- The statements of `Initialize` after the step for
`ARDUINO_LINT_LIBRARY_MANAGER_INDEXING`. -/
def Initialize.afterIndexing (p : Parsers) (h : Host) (flags : FlagSet)
    (projectPaths : List String) (s : State) : Ctl :=
  (logFormatStep h s).andThen fun s =>
  (logLevelStep p h s).andThen fun s =>
  (projectTypeStep p flags s).andThen fun s =>
  (plainFlagsStep flags s).andThen fun s =>
  (targetPathsStep h projectPaths s).andThen fun s =>
  (officialStep h s).andThen fun s =>
  Ctl.ret s none

/-- The statements of `Initialize` after the step for the `--compliance` flag. -/
def Initialize.afterCompliance (p : Parsers) (h : Host) (flags : FlagSet)
    (projectPaths : List String) (s : State) : Ctl :=
  (formatStep p flags s).andThen fun s =>
  (libraryManagerStep flags s).andThen fun s =>
  (libraryManagerIndexingStep h s).andThen fun s =>
  Initialize.afterIndexing p h flags projectPaths s

/-- A defaults table that gives every project type {strict:false, specification:true}. -/
def defaultsStrictSpecification : GoMap projecttype.Type_ (GoMap rulemode.Type_ Bool) :=
  fun _ => some ((GoMap.empty.set rulemode.Type_.Strict false).set
    rulemode.Type_.Specification true)

/-- The configuration variables as declared, with one entry in the override map. -/
def State.withOverride (mode : rulemode.Type_) (value : Bool) : State :=
  { State.init with customRuleModes := GoMap.empty.set mode value }

/-- How many of the three library-manager rule modes read true in the override map. -/
def libraryManagerModesOn (s : State) : Nat :=
  (GoMap.get false s.customRuleModes rulemode.Type_.LibraryManagerSubmission).toNat
  + (GoMap.get false s.customRuleModes rulemode.Type_.LibraryManagerIndexed).toNat
  + (GoMap.get false s.customRuleModes rulemode.Type_.LibraryManagerIndexing).toNat

end configuration

/-! ## Packages `properties`, `compliancelevel`, `jsonschema`, `schema` -/

namespace properties

/-- A `*properties.Map` of go-properties-orderedmap: its key/value pairs in
key order (the order of `Keys()`); the keys of a map are distinct. -/
abbrev Map := List (String × String)

/-- Method `Map.Keys`. -/
def Map.Keys (m : Map) : List String := m.map Prod.fst

/-- Method `Map.Get`: the empty string when the key is absent. -/
def Map.Get (m : Map) (key : String) : String := (m.lookup key).getD ""

/-- Method `Map.Set`: the key moves to the end of the key order. -/
def Map.Set (m : Map) (key value : String) : Map :=
  m.filter (fun kv => kv.1 ≠ key) ++ [(key, value)]

/-- Method `Map.SubTree`: the entries whose key starts with `rootKey` and a
dot, that start removed from the key. -/
def Map.SubTree (m : Map) (rootKey : String) : Map :=
  m.foldl
    (fun newMap kv =>
      if strings.HasPrefix kv.1 (rootKey ++ ".") then
        Map.Set newMap (String.mk (kv.1.data.drop (rootKey ++ ".").data.length)) kv.2
      else newMap)
    []

end properties

/-- A Go `interface{}` value of the documents given to the schema validator: a
string, or a `map[string]interface{}`. -/
inductive Interface where
  | string (s : String)
  | map (entries : String → Option Interface)

namespace compliancelevel

/-- Compliance levels (`compliancelevel.Type`): the constants
`platformtxt.go` names, and any further value of the enumeration. -/
inductive Type_ where
  | Permissive
  | Specification
  | Strict
  | Other (n : Nat)
  deriving DecidableEq, Repr

end compliancelevel

namespace jsonschema

/-- A compiled `jsonschema.Schema`, identified by its URL. -/
structure Schema where
  URL : String
  deriving DecidableEq, Repr

/-- The fields of a `jsonschema.ValidationError` that the schema package
reads; `Context` is the failure context as text. -/
structure ValidationError where
  InstancePtr : String
  SchemaURL : String
  SchemaPtr : String
  Context : String
  deriving DecidableEq, Repr

end jsonschema

namespace schema

/-- Type `schema.Schema`: `Compiled` is a pointer, `none` is `nil`. -/
structure Schema where
  Compiled : Option jsonschema.Schema
  deriving DecidableEq, Repr

/-- Type `schema.ValidationResult`: `Result` is `nil` when validation passed. -/
structure ValidationResult where
  Result : Option jsonschema.ValidationError
  deriving DecidableEq, Repr

/-- The functions of package `schema` that `platformtxt.Validate` calls
(`schema.go` is not among the sources), with `schemadata.Asset` as their data
loader. `Compile` panics on a malformed schema set: `none`. -/
structure Functions where
  Compile : String → List String → Option Schema
  Validate : GoMap String Interface → Schema → ValidationResult

/-- What the generic matcher asks of the regexp package and of the raw schema
documents. -/
structure Matching where
  /-- Go `regexp.MustCompile(pattern).MatchString(s)`. -/
  MatchString : String → String → Bool
  /-- The literal value at the failure's schema pointer in the raw schema
  document, as text. -/
  schemaPointerValue : jsonschema.ValidationError → String

/-- Modelled from the spec: `schema.ValidationErrorMatch` (`schema.go` is not
among the sources), the generic matcher of the Diagnostics Query API. On a failure
the four patterns are matched against the instance pointer, the schema
pointer, the literal value at the schema pointer and the stringified context.
On a passing result (`Result` is `nil`) there is nothing to match and the
answer is false: this is what `TestValidationErrorMatch` in `schema_test.go`
asserts for the query with four empty patterns, and the model follows that
test where the spec's wording differs. -/
def ValidationErrorMatch (m : Matching) (instancePointerQuery schemaPointerQuery
    schemaPointerValueQuery failureContextQuery : String)
    (validationResult : ValidationResult) : Bool :=
  match validationResult.Result with
  | none => false
  | some validationError =>
    m.MatchString instancePointerQuery validationError.InstancePtr
    && m.MatchString schemaPointerQuery validationError.SchemaPtr
    && m.MatchString schemaPointerValueQuery (m.schemaPointerValue validationError)
    && m.MatchString failureContextQuery validationError.Context

end schema

/-! ## Package `platformtxt` -/

namespace platformtxt

/-- The package-level variable `schemaObject`, and the primary schema names
given to `schema.Compile` so far in this process, latest last. -/
structure State where
  schemaObject : GoMap compliancelevel.Type_ schema.Schema
  compileCalls : List String

/-- The variable as declared: `make(map[compliancelevel.Type]schema.Schema)`. -/
def State.init : State where
  schemaObject := GoMap.empty
  compileCalls := []

/-- The slice `referencedSchemaFilenames` of `Validate`. -/
def referencedSchemaFilenames : List String :=
  ["general-definitions-schema.json", "arduino-platform-txt-definitions-schema.json"]

/-- Lines 49-53 of `Validate`: the schemas are compiled when the permissive
entry of `schemaObject` has no compiled schema. A panic of `schema.Compile`
ends the process: `none`. -/
def compileSchemas (f : schema.Functions) (st : State) : Option State :=
  if (GoMap.get (schema.Schema.mk none) st.schemaObject
      compliancelevel.Type_.Permissive).Compiled = none then
    match f.Compile "arduino-platform-txt-permissive-schema.json" referencedSchemaFilenames with
    | none => none
    | some permissive =>
      match f.Compile "arduino-platform-txt-schema.json" referencedSchemaFilenames with
      | none => none
      | some specification =>
        match f.Compile "arduino-platform-txt-strict-schema.json" referencedSchemaFilenames with
        | none => none
        | some strict =>
          some {
            schemaObject :=
              (((st.schemaObject.set compliancelevel.Type_.Permissive permissive).set
                compliancelevel.Type_.Specification specification).set
                compliancelevel.Type_.Strict strict)
            compileCalls := st.compileCalls ++
              ["arduino-platform-txt-permissive-schema.json",
               "arduino-platform-txt-schema.json",
               "arduino-platform-txt-strict-schema.json"] }
  else some st

/-- Lines 63-71 of `Validate`: the document `platformTxtInterface`.
`PropertiesToMap` is `general.PropertiesToMap`, which is not among the sources. -/
def platformTxtInterface (PropertiesToMap : properties.Map → Int → GoMap String Interface)
    (platformTxt : properties.Map) : GoMap String Interface :=
  (properties.Map.Keys platformTxt).foldl
    (fun doc key =>
      if strings.HasPrefix key "tools." then
        doc.set "tools"
          (Interface.map (PropertiesToMap (properties.Map.SubTree platformTxt "tools") 3))
      else
        doc.set key (Interface.string (properties.Map.Get platformTxt key)))
    GoMap.empty

/-- Lines 73-75 of `Validate`: one validation result per compliance level. -/
def validationResults (f : schema.Functions) (doc : GoMap String Interface)
    (schemaObject : GoMap compliancelevel.Type_ schema.Schema) :
    GoMap compliancelevel.Type_ schema.ValidationResult :=
  (((GoMap.empty.set compliancelevel.Type_.Permissive
      (f.Validate doc
        (GoMap.get (schema.Schema.mk none) schemaObject compliancelevel.Type_.Permissive))).set
    compliancelevel.Type_.Specification
      (f.Validate doc
        (GoMap.get (schema.Schema.mk none) schemaObject compliancelevel.Type_.Specification))).set
    compliancelevel.Type_.Strict
      (f.Validate doc
        (GoMap.get (schema.Schema.mk none) schemaObject compliancelevel.Type_.Strict)))

/-- Function `Validate`: the state after the call and the returned map, or
`none` when `schema.Compile` panics. -/
def Validate (f : schema.Functions)
    (PropertiesToMap : properties.Map → Int → GoMap String Interface)
    (st : State) (platformTxt : properties.Map) :
    Option (State × GoMap compliancelevel.Type_ schema.ValidationResult) :=
  match compileSchemas f st with
  | none => none
  | some st1 =>
    some (st1,
      validationResults f (platformTxtInterface PropertiesToMap platformTxt) st1.schemaObject)

/-- A sequence of `Validate` calls in one process: the final state and the
returned maps in call order, or `none` when a call panics. -/
def ValidateAll (f : schema.Functions)
    (PropertiesToMap : properties.Map → Int → GoMap String Interface) :
    State → List properties.Map →
      Option (State × List (GoMap compliancelevel.Type_ schema.ValidationResult))
  | st, [] => some (st, [])
  | st, platformTxt :: rest =>
    match Validate f PropertiesToMap st platformTxt with
    | none => none
    | some (st1, result) =>
      match ValidateAll f PropertiesToMap st1 rest with
      | none => none
      | some (st2, results) => some (st2, result :: results)

/-- The three compiled platform.txt schemas in `schemaObject`. -/
def compiledSchemaObject (permissive specification strict : schema.Schema) :
    GoMap compliancelevel.Type_ schema.Schema :=
  (((GoMap.empty.set compliancelevel.Type_.Permissive permissive).set
    compliancelevel.Type_.Specification specification).set
    compliancelevel.Type_.Strict strict)

/-- A stand-in for `general.PropertiesToMap` for concrete evaluation: the
properties as a one-level map of strings. -/
def flatPropertiesToMap (flatProperties : properties.Map) (_levels : Int) :
    GoMap String Interface :=
  fun key => (flatProperties.lookup key).map Interface.string

/-- A stand-in for package `schema` for concrete evaluation: compiling gives
the schema named by the file, every document passes. -/
def passingSchema : schema.Functions where
  Compile := fun name _ => some (schema.Schema.mk (some (jsonschema.Schema.mk name)))
  Validate := fun _ _ => schema.ValidationResult.mk none

end platformtxt

namespace schema

/-- Whether the characters of `pattern` occur, in a row, in the given text. -/
def occursIn (pattern : List Char) : List Char → Bool
  | [] => pattern.isEmpty
  | c :: rest => pattern.isPrefixOf (c :: rest) || occursIn pattern rest

/-- A stand-in for the regexp package for concrete evaluation, on patterns
without metacharacters: such a pattern matches the strings that contain it.
The schema pointer value is the one of the test data (`"^[a-z]+$"`). -/
def Matching.literal : Matching where
  MatchString := fun pattern s => occursIn pattern.data s.data
  schemaPointerValue := fun _ => "\"^[a-z]+$\""

/-- The passing result of `TestValidationErrorMatch`. -/
def passingResult : ValidationResult := ValidationResult.mk none

/-- A failing result as in `TestValidationErrorMatch`: `property2` violates
the pattern of `referenced-schema-1.json`. -/
def patternMismatchResult : ValidationResult :=
  ValidationResult.mk (some {
    InstancePtr := "#/property2"
    SchemaURL := "https://raw.githubusercontent.com/arduino/arduino-lint/main/internal/rule/schema/testdata/referenced-schema-1.json"
    SchemaPtr := "#/definitions/patternObject/pattern"
    Context := "" })

end schema

namespace schema

/-- Modelled from the spec: `schema.RequiredPropertyMissing` (`schema.go` is
not among the sources). True iff the result is a failure whose context lists
the property among the missing required properties, or whose schema pointer
is the `required` keyword and whose context misses the property. A query on
the generic matcher, the primitive of the Diagnostics Query API; the spec
gives the predicate in words and the patterns render them. -/
def RequiredPropertyMissing (m : Matching) (propertyName : String)
    (validationResult : ValidationResult) : Bool :=
  ValidationErrorMatch m "" "" "" ("^#/" ++ propertyName ++ "$") validationResult
  || ValidationErrorMatch m "" "/required$" "" ("^#/" ++ propertyName ++ "$") validationResult

/-- Modelled from the spec: `schema.PropertyPatternMismatch` (`schema.go` is
not among the sources). True iff the failing instance pointer equals the path
for the property and the failing schema pointer ends in a pattern-keyword
segment. -/
def PropertyPatternMismatch (m : Matching) (propertyName : String)
    (validationResult : ValidationResult) : Bool :=
  ValidationErrorMatch m ("^#/" ++ propertyName ++ "$") "/pattern$" "" "" validationResult

/-- Modelled from the spec: `schema.PropertyLessThanMinLength` (`schema.go` is
not among the sources). The pointer matching of the pattern mismatch, against
the minimum-length keyword segment. -/
def PropertyLessThanMinLength (m : Matching) (propertyName : String)
    (validationResult : ValidationResult) : Bool :=
  ValidationErrorMatch m ("^#/" ++ propertyName ++ "$") "/minLength$" "" "" validationResult

/-- Modelled from the spec: `schema.PropertyGreaterThanMaxLength` (`schema.go`
is not among the sources). The pointer matching of the pattern mismatch,
against the maximum-length keyword segment. -/
def PropertyGreaterThanMaxLength (m : Matching) (propertyName : String)
    (validationResult : ValidationResult) : Bool :=
  ValidationErrorMatch m ("^#/" ++ propertyName ++ "$") "/maxLength$" "" "" validationResult

/-- Modelled from the spec: `schema.PropertyEnumMismatch` (`schema.go` is not
among the sources). The pointer matching of the pattern mismatch, against the
enum keyword segment. -/
def PropertyEnumMismatch (m : Matching) (propertyName : String)
    (validationResult : ValidationResult) : Bool :=
  ValidationErrorMatch m ("^#/" ++ propertyName ++ "$") "/enum$" "" "" validationResult

/-- Modelled from the spec: `schema.PropertyDependenciesMissing` (`schema.go`
is not among the sources). True iff the result is a failure of the
dependencies keyword whose context names the property as the one whose
declared dependency is unmet. -/
def PropertyDependenciesMissing (m : Matching) (propertyName : String)
    (validationResult : ValidationResult) : Bool :=
  ValidationErrorMatch m "" "/dependencies/" "" ("^#/" ++ propertyName ++ "$") validationResult

/-- Modelled from the spec: `schema.MisspelledOptionalPropertyFound`
(`schema.go` is not among the sources). True iff the failure is an
unrecognized property rejected by a no-additional-properties constraint. -/
def MisspelledOptionalPropertyFound (m : Matching) (validationResult : ValidationResult) :
    Bool :=
  ValidationErrorMatch m "" "/additionalProperties$" "" "" validationResult

end schema

namespace configuration

/-- Whether a block of statements ended by going on to the next statement. -/
def Ctl.fallsThrough : Ctl → Bool
  | Ctl.next _ => true
  | Ctl.ret _ _ => false
  | Ctl.panic _ _ => false

/-- Whether a call gets to the assignment of line 54: the `--compliance` and
`--format` values before it are accepted and `--library-manager` is not empty. -/
def Initialize.assignsLibraryManagerFlag (p : Parsers) (flags : FlagSet) : Bool :=
  decide ((flags.GetString "compliance" = "" ∨
      (rulemode.ComplianceModeFromString (flags.GetString "compliance")).2.2.2 = none) ∧
    (p.outputformatFromString (flags.GetString "format")).2 = none ∧
    flags.GetString "library-manager" ≠ "")

/-- Lines 38-103 of `Initialize`: the statements before the target paths. -/
def Initialize.beforeTargetPaths (p : Parsers) (h : Host) (flags : FlagSet) (s : State) :
    Ctl :=
  (complianceStep flags s).andThen fun s =>
  (formatStep p flags s).andThen fun s =>
  (libraryManagerStep flags s).andThen fun s =>
  (libraryManagerIndexingStep h s).andThen fun s =>
  (logFormatStep h s).andThen fun s =>
  (logLevelStep p h s).andThen fun s =>
  (projectTypeStep p flags s).andThen fun s =>
  plainFlagsStep flags s

/-- Lines 38-125 of `Initialize`: the statements before `ARDUINO_LINT_OFFICIAL`. -/
def Initialize.beforeOfficial (p : Parsers) (h : Host) (flags : FlagSet)
    (projectPaths : List String) (s : State) : Ctl :=
  (Initialize.beforeTargetPaths p h flags s).andThen fun s =>
  targetPathsStep h projectPaths s

end configuration

/-! ## Frame lemmas for the statements of `Initialize` -/

namespace configuration

theorem Initialize_state (p : Parsers) (h : Host) (flags : FlagSet) (projectPaths : List String)
    (s : State) :
    (Initialize p h flags projectPaths s).1 = (Initialize.body p h flags projectPaths s).state := by
  unfold Initialize
  cases Initialize.body p h flags projectPaths s <;> rfl

theorem Ctl.andThen_state (P : State → Prop) (c : Ctl) (rest : State → Ctl)
    (hc : P c.state) (hrest : ∀ s, P s → P (rest s).state) : P (c.andThen rest).state := by
  cases c with
  | next s => exact hrest s hc
  | ret s err => exact hc
  | panic s msg => exact hc

theorem complianceStep_frame (flags : FlagSet) (s : State) (k : rulemode.Type_)
    (h1 : k ≠ rulemode.Type_.Strict) (h2 : k ≠ rulemode.Type_.Specification)
    (h3 : k ≠ rulemode.Type_.Permissive) :
    (complianceStep flags s).state.customRuleModes k = s.customRuleModes k := by
  unfold complianceStep
  simp only []
  split
  · split <;> simp [Ctl.state, GoMap.set, h1, h2, h3]
  · rfl

theorem formatStep_frame (p : Parsers) (flags : FlagSet) (s : State) :
    (formatStep p flags s).state.customRuleModes = s.customRuleModes := by
  unfold formatStep
  simp only []
  split <;> rfl

theorem libraryManagerStep_frame (flags : FlagSet) (s : State) (k : rulemode.Type_)
    (h1 : k ≠ rulemode.Type_.LibraryManagerSubmission)
    (h2 : k ≠ rulemode.Type_.LibraryManagerIndexed)
    (h3 : k ≠ rulemode.Type_.LibraryManagerIndexing) :
    (libraryManagerStep flags s).state.customRuleModes k = s.customRuleModes k := by
  unfold libraryManagerStep
  simp only []
  split
  · split <;> simp [Ctl.state, GoMap.set, h1, h2, h3]
  · rfl

theorem libraryManagerIndexingStep_frame (h : Host) (s : State) (k : rulemode.Type_)
    (h1 : k ≠ rulemode.Type_.LibraryManagerSubmission)
    (h2 : k ≠ rulemode.Type_.LibraryManagerIndexed)
    (h3 : k ≠ rulemode.Type_.LibraryManagerIndexing) :
    (libraryManagerIndexingStep h s).state.customRuleModes k = s.customRuleModes k := by
  unfold libraryManagerIndexingStep
  split
  · simp only []
    split
    · rfl
    · split
      · simp [Ctl.state, GoMap.set, h1, h2, h3]
      · rfl
  · rfl

theorem logFormatStep_frame (h : Host) (s : State) :
    (logFormatStep h s).state.customRuleModes = s.customRuleModes := by
  unfold logFormatStep
  split
  · simp only []
    split
    · rfl
    · simp [Ctl.state, EnableLogging]
  · rfl

theorem logLevelStep_frame (p : Parsers) (h : Host) (s : State) :
    (logLevelStep p h s).state.customRuleModes = s.customRuleModes := by
  unfold logLevelStep
  split
  · simp only []
    split
    · rfl
    · simp [Ctl.state, EnableLogging]
  · rfl

theorem projectTypeStep_frame (p : Parsers) (flags : FlagSet) (s : State) :
    (projectTypeStep p flags s).state.customRuleModes = s.customRuleModes := by
  unfold projectTypeStep
  simp only []
  split <;> rfl

theorem plainFlagsStep_frame (flags : FlagSet) (s : State) :
    (plainFlagsStep flags s).state.customRuleModes = s.customRuleModes := rfl

theorem targetPathLoop_frame (h : Host) (projectPaths : List String) (s : State) :
    (targetPathLoop h projectPaths s).state.customRuleModes = s.customRuleModes := by
  induction projectPaths generalizing s with
  | nil => rfl
  | cons projectPath rest ih =>
    unfold targetPathLoop
    simp only []
    split
    · rfl
    · split
      · rfl
      · rw [ih]

theorem targetPathsStep_frame (h : Host) (projectPaths : List String) (s : State) :
    (targetPathsStep h projectPaths s).state.customRuleModes = s.customRuleModes := by
  unfold targetPathsStep
  simp only []
  split
  · split <;> rfl
  · rw [targetPathLoop_frame]

theorem officialStep_frame (h : Host) (s : State) (k : rulemode.Type_)
    (h1 : k ≠ rulemode.Type_.Official) :
    (officialStep h s).state.customRuleModes k = s.customRuleModes k := by
  unfold officialStep
  split
  · simp only []
    split <;> simp [Ctl.state, GoMap.set, h1]
  · rfl

theorem Initialize.afterIndexing_frame (p : Parsers) (h : Host) (flags : FlagSet)
    (projectPaths : List String) (s : State) (k : rulemode.Type_)
    (h1 : k ≠ rulemode.Type_.Official) :
    (Initialize.afterIndexing p h flags projectPaths s).state.customRuleModes k
      = s.customRuleModes k := by
  unfold Initialize.afterIndexing
  apply Ctl.andThen_state (fun t => t.customRuleModes k = s.customRuleModes k)
  · rw [logFormatStep_frame]
  intro s1 e1
  apply Ctl.andThen_state (fun t => t.customRuleModes k = s.customRuleModes k)
  · rw [logLevelStep_frame, e1]
  intro s2 e2
  apply Ctl.andThen_state (fun t => t.customRuleModes k = s.customRuleModes k)
  · rw [projectTypeStep_frame, e2]
  intro s3 e3
  apply Ctl.andThen_state (fun t => t.customRuleModes k = s.customRuleModes k)
  · rw [plainFlagsStep_frame, e3]
  intro s4 e4
  apply Ctl.andThen_state (fun t => t.customRuleModes k = s.customRuleModes k)
  · rw [targetPathsStep_frame, e4]
  intro s5 e5
  apply Ctl.andThen_state (fun t => t.customRuleModes k = s.customRuleModes k)
  · rw [officialStep_frame h s5 k h1, e5]
  intro s6 e6
  exact e6

end configuration

namespace configuration

theorem complianceStep_next (flags : FlagSet) (s : State)
    (hc : flags.GetString "compliance" = "" ∨
      (rulemode.ComplianceModeFromString (flags.GetString "compliance")).2.2.2 = none) :
    ∃ s1, complianceStep flags s = Ctl.next s1 := by
  unfold complianceStep
  simp only []
  split
  · rename_i hne
    rcases hc with hc | hc
    · exact absurd hc hne
    · rw [if_neg (by simp [hc])]
      exact ⟨_, rfl⟩
  · exact ⟨_, rfl⟩

theorem formatStep_next (p : Parsers) (flags : FlagSet) (s : State)
    (hf : (p.outputformatFromString (flags.GetString "format")).2 = none) :
    ∃ s1, formatStep p flags s = Ctl.next s1 := by
  unfold formatStep
  simp only []
  rw [if_neg (by simp [hf])]
  exact ⟨_, rfl⟩

theorem libraryManagerStep_next (flags : FlagSet) (s : State)
    (hl : flags.GetString "library-manager" = "" ∨
      (rulemode.LibraryManagerModeFromString (flags.GetString "library-manager")).2.2.2
        = none) :
    ∃ s1, libraryManagerStep flags s = Ctl.next s1 := by
  unfold libraryManagerStep
  simp only []
  split
  · rename_i hne
    rcases hl with hl | hl
    · exact absurd hl hne
    · rw [if_neg (by simp [hl])]
      exact ⟨_, rfl⟩
  · exact ⟨_, rfl⟩

theorem Initialize.body_eq (p : Parsers) (h : Host) (flags : FlagSet)
    (projectPaths : List String) (s : State) :
    Initialize.body p h flags projectPaths s =
      (complianceStep flags s).andThen fun s =>
      (formatStep p flags s).andThen fun s =>
      (libraryManagerStep flags s).andThen fun s =>
      (libraryManagerIndexingStep h s).andThen fun s =>
      Initialize.afterIndexing p h flags projectPaths s := rfl

/-- C1 (amended): if the `--compliance`, `--format` and `--library-manager`
flag values are accepted (each of the two rule-mode flags may also be empty),
and `ARDUINO_LINT_LIBRARY_MANAGER_INDEXING` is set to a string that parses as
boolean true, then after `Initialize` (whether or not a later step fails) the
override map holds LibraryManagerSubmission=false, LibraryManagerIndexed=false
and LibraryManagerIndexing=true. -/
theorem Initialize_indexing_env_override (p : Parsers) (h : Host) (flags : FlagSet)
    (projectPaths : List String) (s : State) (v : String)
    (hc : flags.GetString "compliance" = "" ∨
      (rulemode.ComplianceModeFromString (flags.GetString "compliance")).2.2.2 = none)
    (hf : (p.outputformatFromString (flags.GetString "format")).2 = none)
    (hl : flags.GetString "library-manager" = "" ∨
      (rulemode.LibraryManagerModeFromString (flags.GetString "library-manager")).2.2.2
        = none)
    (henv : h.LookupEnv "ARDUINO_LINT_LIBRARY_MANAGER_INDEXING" = some v)
    (hv : strconv.ParseBool v = (true, none)) :
    (Initialize p h flags projectPaths s).1.customRuleModes
        rulemode.Type_.LibraryManagerSubmission = some false ∧
    (Initialize p h flags projectPaths s).1.customRuleModes
        rulemode.Type_.LibraryManagerIndexed = some false ∧
    (Initialize p h flags projectPaths s).1.customRuleModes
        rulemode.Type_.LibraryManagerIndexing = some true := by
  obtain ⟨s1, e1⟩ := complianceStep_next flags s hc
  obtain ⟨s2, e2⟩ := formatStep_next p flags s1 hf
  obtain ⟨s3, e3⟩ := libraryManagerStep_next flags s2 hl
  have e4 : libraryManagerIndexingStep h s3 = Ctl.next { s3 with customRuleModes :=
      (((s3.customRuleModes.set rulemode.Type_.LibraryManagerSubmission false).set
        rulemode.Type_.LibraryManagerIndexed false).set
        rulemode.Type_.LibraryManagerIndexing true) } := by
    unfold libraryManagerIndexingStep
    simp [henv, hv]
  rw [Initialize_state, Initialize.body_eq, e1]
  simp only [Ctl.andThen]
  rw [e2]
  simp only [Ctl.andThen]
  rw [e3]
  simp only [Ctl.andThen]
  rw [e4]
  simp only [Ctl.andThen]
  refine ⟨?_, ?_, ?_⟩
  · rw [Initialize.afterIndexing_frame _ _ _ _ _ _ (by decide)]
    simp [GoMap.set]
  · rw [Initialize.afterIndexing_frame _ _ _ _ _ _ (by decide)]
    simp [GoMap.set]
  · rw [Initialize.afterIndexing_frame _ _ _ _ _ _ (by decide)]
    simp [GoMap.set]

/-- C1, witness: `--library-manager submission` with
`ARDUINO_LINT_LIBRARY_MANAGER_INDEXING=true`. -/
theorem Initialize_indexing_env_override_witness :
    (Initialize Parsers.lenient
        (Host.ofEnv [("ARDUINO_LINT_LIBRARY_MANAGER_INDEXING", "true")])
        (FlagSet.ofList [("library-manager", "submission")]) [] State.init).1.customRuleModes
        rulemode.Type_.LibraryManagerSubmission = some false ∧
    (Initialize Parsers.lenient
        (Host.ofEnv [("ARDUINO_LINT_LIBRARY_MANAGER_INDEXING", "true")])
        (FlagSet.ofList [("library-manager", "submission")]) [] State.init).1.customRuleModes
        rulemode.Type_.LibraryManagerIndexed = some false ∧
    (Initialize Parsers.lenient
        (Host.ofEnv [("ARDUINO_LINT_LIBRARY_MANAGER_INDEXING", "true")])
        (FlagSet.ofList [("library-manager", "submission")]) [] State.init).1.customRuleModes
        rulemode.Type_.LibraryManagerIndexing = some true :=
  Initialize_indexing_env_override Parsers.lenient
    (Host.ofEnv [("ARDUINO_LINT_LIBRARY_MANAGER_INDEXING", "true")])
    (FlagSet.ofList [("library-manager", "submission")]) [] State.init "true"
    (Or.inl (by decide)) (by decide) (Or.inr (by decide)) (by decide) (by decide)

/-- C1, counterexample: with `--library-manager bogus` (a value the parser
rejects) and `ARDUINO_LINT_LIBRARY_MANAGER_INDEXING=true`, `Initialize`
returns the flag error before it reads the environment variable, and the
override map holds LibraryManagerIndexing=false. -/
theorem Initialize_indexing_env_override_counterexample :
    strconv.ParseBool "true" = (true, none) ∧
    (Initialize Parsers.lenient
        (Host.ofEnv [("ARDUINO_LINT_LIBRARY_MANAGER_INDEXING", "true")])
        (FlagSet.ofList [("library-manager", "bogus")]) [] State.init).2
      = Outcome.returned (some "--library-manager flag value bogus not valid") ∧
    (Initialize Parsers.lenient
        (Host.ofEnv [("ARDUINO_LINT_LIBRARY_MANAGER_INDEXING", "true")])
        (FlagSet.ofList [("library-manager", "bogus")]) [] State.init).1.customRuleModes
        rulemode.Type_.LibraryManagerIndexing = some false := by
  refine ⟨by decide, by decide, by decide⟩

end configuration

namespace configuration

/-- C2 (amended): for every project type and every rule mode the defaults
table mentions for that project type, `RuleModes` holds the override map's
value when the override map has an entry for the rule mode, and the default
table's value otherwise. -/
theorem RuleModes_override_else_default
    (defaultRuleModes : GoMap projecttype.Type_ (GoMap rulemode.Type_ Bool)) (s : State)
    (superprojectType : projecttype.Type_) (mode : rulemode.Type_) (defaultValue : Bool)
    (hd : GoMap.get GoMap.empty defaultRuleModes superprojectType mode = some defaultValue) :
    RuleModes defaultRuleModes s superprojectType mode
      = some ((s.customRuleModes mode).getD defaultValue) := by
  unfold RuleModes rulemode.Modes
  simp only [hd]
  cases s.customRuleModes mode <;> rfl

/-- C2, witness: with defaults {strict:false, specification:true} and no
override the result is specification=true, strict=false. -/
theorem RuleModes_override_else_default_witness :
    RuleModes defaultsStrictSpecification State.init 0 rulemode.Type_.Specification
      = some true ∧
    RuleModes defaultsStrictSpecification State.init 0 rulemode.Type_.Strict = some false :=
  ⟨RuleModes_override_else_default defaultsStrictSpecification State.init 0
      rulemode.Type_.Specification true (by decide),
   RuleModes_override_else_default defaultsStrictSpecification State.init 0
      rulemode.Type_.Strict false (by decide)⟩

/-- C2, counterexample: the override map has LibraryManagerSubmission=true, the
defaults table {strict:false, specification:true} does not mention that rule
mode, and `RuleModes` has no entry for it: it reads false, not the override. -/
theorem RuleModes_override_else_default_counterexample :
    (State.withOverride rulemode.Type_.LibraryManagerSubmission true).customRuleModes
      rulemode.Type_.LibraryManagerSubmission = some true ∧
    GoMap.get false
      (RuleModes defaultsStrictSpecification
        (State.withOverride rulemode.Type_.LibraryManagerSubmission true) 0)
      rulemode.Type_.LibraryManagerSubmission = false := by
  refine ⟨by decide, by decide⟩

/-- C3: a rule mode that the defaults table does not mention for the project
type has no entry in the result of `RuleModes` and reads false there,
whatever the override map contains. -/
theorem RuleModes_unmentioned_false
    (defaultRuleModes : GoMap projecttype.Type_ (GoMap rulemode.Type_ Bool)) (s : State)
    (superprojectType : projecttype.Type_) (mode : rulemode.Type_)
    (hd : GoMap.get GoMap.empty defaultRuleModes superprojectType mode = none) :
    RuleModes defaultRuleModes s superprojectType mode = none ∧
    GoMap.get false (RuleModes defaultRuleModes s superprojectType) mode = false := by
  have h1 : RuleModes defaultRuleModes s superprojectType mode = none := by
    unfold RuleModes rulemode.Modes
    simp only [hd]
  exact ⟨h1, by simp [GoMap.get, h1]⟩

/-- C3, witness: the override map sets Official=true, the defaults table
{strict:false, specification:true} does not mention Official. -/
theorem RuleModes_unmentioned_false_witness :
    (State.withOverride rulemode.Type_.Official true).customRuleModes
      rulemode.Type_.Official = some true ∧
    RuleModes defaultsStrictSpecification (State.withOverride rulemode.Type_.Official true) 3
      rulemode.Type_.Official = none ∧
    GoMap.get false
      (RuleModes defaultsStrictSpecification (State.withOverride rulemode.Type_.Official true) 3)
      rulemode.Type_.Official = false :=
  ⟨by decide,
   RuleModes_unmentioned_false defaultsStrictSpecification
    (State.withOverride rulemode.Type_.Official true) 3 rulemode.Type_.Official (by decide)⟩

end configuration

namespace configuration

theorem Initialize.afterCompliance_frame (p : Parsers) (h : Host) (flags : FlagSet)
    (projectPaths : List String) (s : State) (k : rulemode.Type_)
    (h1 : k ≠ rulemode.Type_.LibraryManagerSubmission)
    (h2 : k ≠ rulemode.Type_.LibraryManagerIndexed)
    (h3 : k ≠ rulemode.Type_.LibraryManagerIndexing)
    (h4 : k ≠ rulemode.Type_.Official) :
    (Initialize.afterCompliance p h flags projectPaths s).state.customRuleModes k
      = s.customRuleModes k := by
  unfold Initialize.afterCompliance
  apply Ctl.andThen_state (fun t => t.customRuleModes k = s.customRuleModes k)
  · rw [formatStep_frame]
  intro s1 e1
  apply Ctl.andThen_state (fun t => t.customRuleModes k = s.customRuleModes k)
  · rw [libraryManagerStep_frame flags s1 k h1 h2 h3, e1]
  intro s2 e2
  apply Ctl.andThen_state (fun t => t.customRuleModes k = s.customRuleModes k)
  · rw [libraryManagerIndexingStep_frame h s2 k h1 h2 h3, e2]
  intro s3 e3
  rw [Initialize.afterIndexing_frame p h flags projectPaths s3 k h4, e3]

theorem Initialize.body_eq_afterCompliance (p : Parsers) (h : Host) (flags : FlagSet)
    (projectPaths : List String) (s : State) :
    Initialize.body p h flags projectPaths s =
      (complianceStep flags s).andThen fun s =>
      Initialize.afterCompliance p h flags projectPaths s := rfl

theorem Initialize_of_ret (p : Parsers) (h : Host) (flags : FlagSet)
    (projectPaths : List String) (s s1 : State) (err : GoError)
    (hb : Initialize.body p h flags projectPaths s = Ctl.ret s1 err) :
    Initialize p h flags projectPaths s = (s1, Outcome.returned err) := by
  unfold Initialize
  rw [hb]

/-- The tiers `rulemode.ComplianceModeFromString` returns without an error:
exactly one of the three is true. -/
theorem ComplianceModeFromString_accepted (v : String)
    (hv : (rulemode.ComplianceModeFromString v).2.2.2 = none) :
    ((rulemode.ComplianceModeFromString v).1 = true ∧
        (rulemode.ComplianceModeFromString v).2.1 = false ∧
        (rulemode.ComplianceModeFromString v).2.2.1 = false) ∨
    ((rulemode.ComplianceModeFromString v).1 = false ∧
        (rulemode.ComplianceModeFromString v).2.1 = true ∧
        (rulemode.ComplianceModeFromString v).2.2.1 = false) ∨
    ((rulemode.ComplianceModeFromString v).1 = false ∧
        (rulemode.ComplianceModeFromString v).2.1 = false ∧
        (rulemode.ComplianceModeFromString v).2.2.1 = true) := by
  unfold rulemode.ComplianceModeFromString at hv ⊢
  split_ifs at hv ⊢ <;> simp_all

/-- C4: for a non-empty `--compliance` value, `Initialize` either returns the
error for that value, or leaves the override map with exactly one of Strict,
Specification and Permissive set to true and the other two set to false; with
an empty value the three compliance entries of the override map stay as they
were. -/
theorem Initialize_compliance_single_select (p : Parsers) (h : Host) (flags : FlagSet)
    (projectPaths : List String) (s : State) :
    (flags.GetString "compliance" ≠ "" →
      (Initialize p h flags projectPaths s).2 = Outcome.returned
          (some ("--compliance flag value " ++ flags.GetString "compliance" ++ " not valid")) ∨
      ((Initialize p h flags projectPaths s).1.customRuleModes rulemode.Type_.Strict
          = some true ∧
        (Initialize p h flags projectPaths s).1.customRuleModes rulemode.Type_.Specification
          = some false ∧
        (Initialize p h flags projectPaths s).1.customRuleModes rulemode.Type_.Permissive
          = some false) ∨
      ((Initialize p h flags projectPaths s).1.customRuleModes rulemode.Type_.Strict
          = some false ∧
        (Initialize p h flags projectPaths s).1.customRuleModes rulemode.Type_.Specification
          = some true ∧
        (Initialize p h flags projectPaths s).1.customRuleModes rulemode.Type_.Permissive
          = some false) ∨
      ((Initialize p h flags projectPaths s).1.customRuleModes rulemode.Type_.Strict
          = some false ∧
        (Initialize p h flags projectPaths s).1.customRuleModes rulemode.Type_.Specification
          = some false ∧
        (Initialize p h flags projectPaths s).1.customRuleModes rulemode.Type_.Permissive
          = some true)) ∧
    (flags.GetString "compliance" = "" →
      (Initialize p h flags projectPaths s).1.customRuleModes rulemode.Type_.Strict
          = s.customRuleModes rulemode.Type_.Strict ∧
      (Initialize p h flags projectPaths s).1.customRuleModes rulemode.Type_.Specification
          = s.customRuleModes rulemode.Type_.Specification ∧
      (Initialize p h flags projectPaths s).1.customRuleModes rulemode.Type_.Permissive
          = s.customRuleModes rulemode.Type_.Permissive) := by
  constructor
  · intro hne
    by_cases herr : (rulemode.ComplianceModeFromString (flags.GetString "compliance")).2.2.2
        = none
    · right
      have hstep : complianceStep flags s = Ctl.next { s with customRuleModes :=
          (((s.customRuleModes.set rulemode.Type_.Strict
            (rulemode.ComplianceModeFromString (flags.GetString "compliance")).1).set
            rulemode.Type_.Specification
            (rulemode.ComplianceModeFromString (flags.GetString "compliance")).2.1).set
            rulemode.Type_.Permissive
            (rulemode.ComplianceModeFromString (flags.GetString "compliance")).2.2.1) } := by
        unfold complianceStep
        simp [hne, herr]
      rw [Initialize_state, Initialize.body_eq_afterCompliance, hstep]
      simp only [Ctl.andThen]
      rw [Initialize.afterCompliance_frame _ _ _ _ _ _ (by decide) (by decide) (by decide)
          (by decide),
        Initialize.afterCompliance_frame _ _ _ _ _ _ (by decide) (by decide) (by decide)
          (by decide),
        Initialize.afterCompliance_frame _ _ _ _ _ _ (by decide) (by decide) (by decide)
          (by decide)]
      rcases ComplianceModeFromString_accepted _ herr with ⟨a, b, c⟩ | ⟨a, b, c⟩ | ⟨a, b, c⟩
      · left
        simp [GoMap.set, a, b, c]
      · right; left
        simp [GoMap.set, a, b, c]
      · right; right
        simp [GoMap.set, a, b, c]
    · left
      have hstep : ∃ s1, complianceStep flags s = Ctl.ret s1
          (some ("--compliance flag value " ++ flags.GetString "compliance" ++ " not valid")) := by
        unfold complianceStep
        simp only []
        rw [if_pos hne, if_pos herr]
        exact ⟨_, rfl⟩
      obtain ⟨s1, hs1⟩ := hstep
      rw [Initialize_of_ret p h flags projectPaths s s1 _
        (by rw [Initialize.body_eq_afterCompliance, hs1]; rfl)]
  · intro hempty
    have hstep : complianceStep flags s = Ctl.next s := by
      unfold complianceStep
      simp [hempty]
    rw [Initialize_state, Initialize.body_eq_afterCompliance, hstep]
    simp only [Ctl.andThen]
    exact ⟨Initialize.afterCompliance_frame _ _ _ _ _ _ (by decide) (by decide) (by decide)
        (by decide),
      Initialize.afterCompliance_frame _ _ _ _ _ _ (by decide) (by decide) (by decide)
        (by decide),
      Initialize.afterCompliance_frame _ _ _ _ _ _ (by decide) (by decide) (by decide)
        (by decide)⟩

/-- C4, witness: `--compliance strict` leaves Strict=true, Specification=false,
Permissive=false; with the flag unset an earlier Permissive=true stays. -/
theorem Initialize_compliance_single_select_witness :
    ((Initialize Parsers.lenient (Host.ofEnv []) (FlagSet.ofList [("compliance", "strict")])
        [] State.init).1.customRuleModes rulemode.Type_.Strict = some true ∧
      (Initialize Parsers.lenient (Host.ofEnv []) (FlagSet.ofList [("compliance", "strict")])
        [] State.init).1.customRuleModes rulemode.Type_.Specification = some false ∧
      (Initialize Parsers.lenient (Host.ofEnv []) (FlagSet.ofList [("compliance", "strict")])
        [] State.init).1.customRuleModes rulemode.Type_.Permissive = some false) ∧
    (Initialize Parsers.lenient (Host.ofEnv []) (FlagSet.ofList [])
        [] (State.withOverride rulemode.Type_.Permissive true)).1.customRuleModes
        rulemode.Type_.Permissive = some true := by
  have h1 := (Initialize_compliance_single_select Parsers.lenient (Host.ofEnv [])
    (FlagSet.ofList [("compliance", "strict")]) [] State.init).1 (by decide)
  have h2 := (Initialize_compliance_single_select Parsers.lenient (Host.ofEnv [])
    (FlagSet.ofList []) [] (State.withOverride rulemode.Type_.Permissive true)).2 (by decide)
  refine ⟨?_, ?_⟩
  · rcases h1 with e | e | e | e
    · exact absurd e (by decide)
    · exact e
    · exact absurd e.1 (by decide)
    · exact absurd e.1 (by decide)
  · rw [h2.2.2]
    decide

end configuration

namespace configuration

theorem libraryManagerModesOn_congr (s t : State)
    (h1 : t.customRuleModes rulemode.Type_.LibraryManagerSubmission
      = s.customRuleModes rulemode.Type_.LibraryManagerSubmission)
    (h2 : t.customRuleModes rulemode.Type_.LibraryManagerIndexed
      = s.customRuleModes rulemode.Type_.LibraryManagerIndexed)
    (h3 : t.customRuleModes rulemode.Type_.LibraryManagerIndexing
      = s.customRuleModes rulemode.Type_.LibraryManagerIndexing) :
    libraryManagerModesOn t = libraryManagerModesOn s := by
  unfold libraryManagerModesOn GoMap.get
  rw [h1, h2, h3]

theorem libraryManagerModesOn_set (s : State) (a b c : Bool) :
    libraryManagerModesOn { s with customRuleModes :=
      (((s.customRuleModes.set rulemode.Type_.LibraryManagerSubmission a).set
        rulemode.Type_.LibraryManagerIndexed b).set
        rulemode.Type_.LibraryManagerIndexing c) } = a.toNat + b.toNat + c.toNat := by
  simp [libraryManagerModesOn, GoMap.get, GoMap.set]

/-- The modes `rulemode.LibraryManagerModeFromString` returns, with or without
an error: at most one of the three is true. -/
theorem LibraryManagerModeFromString_single (v : String) :
    (rulemode.LibraryManagerModeFromString v).1.toNat
      + (rulemode.LibraryManagerModeFromString v).2.1.toNat
      + (rulemode.LibraryManagerModeFromString v).2.2.1.toNat ≤ 1 := by
  unfold rulemode.LibraryManagerModeFromString
  split_ifs <;> simp

theorem libraryManagerStep_exclusive (flags : FlagSet) (s : State)
    (hs : libraryManagerModesOn s ≤ 1) :
    libraryManagerModesOn (libraryManagerStep flags s).state ≤ 1 := by
  unfold libraryManagerStep
  simp only []
  split
  · split
    · simp only [Ctl.state]
      rw [libraryManagerModesOn_set]
      exact LibraryManagerModeFromString_single _
    · simp only [Ctl.state]
      rw [libraryManagerModesOn_set]
      exact LibraryManagerModeFromString_single _
  · exact hs

theorem libraryManagerIndexingStep_exclusive (h : Host) (s : State)
    (hs : libraryManagerModesOn s ≤ 1) :
    libraryManagerModesOn (libraryManagerIndexingStep h s).state ≤ 1 := by
  unfold libraryManagerIndexingStep
  split
  · simp only []
    split
    · exact hs
    · split
      · simp only [Ctl.state]
        rw [libraryManagerModesOn_set]
        decide
      · exact hs
  · exact hs

theorem Initialize_exclusive (p : Parsers) (h : Host) (flags : FlagSet)
    (projectPaths : List String) (s : State) (hs : libraryManagerModesOn s ≤ 1) :
    libraryManagerModesOn (Initialize p h flags projectPaths s).1 ≤ 1 := by
  rw [Initialize_state, Initialize.body_eq]
  apply Ctl.andThen_state (fun t => libraryManagerModesOn t ≤ 1)
  · rw [libraryManagerModesOn_congr s _
      (complianceStep_frame flags s _ (by decide) (by decide) (by decide))
      (complianceStep_frame flags s _ (by decide) (by decide) (by decide))
      (complianceStep_frame flags s _ (by decide) (by decide) (by decide))]
    exact hs
  intro s1 hs1
  apply Ctl.andThen_state (fun t => libraryManagerModesOn t ≤ 1)
  · rw [libraryManagerModesOn_congr s1 _ (by rw [formatStep_frame])
      (by rw [formatStep_frame]) (by rw [formatStep_frame])]
    exact hs1
  intro s2 hs2
  apply Ctl.andThen_state (fun t => libraryManagerModesOn t ≤ 1)
  · exact libraryManagerStep_exclusive flags s2 hs2
  intro s3 hs3
  apply Ctl.andThen_state (fun t => libraryManagerModesOn t ≤ 1)
  · exact libraryManagerIndexingStep_exclusive h s3 hs3
  intro s4 hs4
  rw [libraryManagerModesOn_congr s4 _
    (Initialize.afterIndexing_frame p h flags projectPaths s4 _ (by decide))
    (Initialize.afterIndexing_frame p h flags projectPaths s4 _ (by decide))
    (Initialize.afterIndexing_frame p h flags projectPaths s4 _ (by decide))]
  exact hs4

theorem runCalls_exclusive (p : Parsers) (calls : List Call) (s : State)
    (hs : libraryManagerModesOn s ≤ 1) : libraryManagerModesOn (runCalls p s calls) ≤ 1 := by
  induction calls generalizing s with
  | nil => exact hs
  | cons c rest ih =>
    unfold runCalls
    exact ih _ (Initialize_exclusive p c.host c.flags c.projectPaths s hs)

/-- C5: starting from the empty override map, after any sequence of
`Initialize` calls (whatever their flags, environment and arguments, whether a
call returns an error, panics or succeeds) at most one of
LibraryManagerSubmission, LibraryManagerIndexed and LibraryManagerIndexing
reads true in the override map. -/
theorem Initialize_libraryManager_modes_exclusive (p : Parsers) (calls : List Call) :
    libraryManagerModesOn (runCalls p State.init calls) ≤ 1 :=
  runCalls_exclusive p calls State.init (by decide)

/-- C6: if the `--compliance` value is non-empty and the compliance-mode parser
rejects it, `Initialize` returns the error "--compliance flag value VALUE not
valid" and no later step runs: output format, the library-manager and Official
entries of the override map (every entry but the three compliance tiers),
project-type filter, recursive, report file path, verbose, version mode,
target paths and the logging settings are as before the call. -/
theorem Initialize_compliance_rejected (p : Parsers) (h : Host) (flags : FlagSet)
    (projectPaths : List String) (s : State)
    (hne : flags.GetString "compliance" ≠ "")
    (hrej : (rulemode.ComplianceModeFromString (flags.GetString "compliance")).2.2.2 ≠ none) :
    (Initialize p h flags projectPaths s).2 = Outcome.returned
      (some ("--compliance flag value " ++ flags.GetString "compliance" ++ " not valid")) ∧
    (Initialize p h flags projectPaths s).1.outputFormat = s.outputFormat ∧
    (∀ k, k ≠ rulemode.Type_.Strict → k ≠ rulemode.Type_.Specification →
      k ≠ rulemode.Type_.Permissive →
      (Initialize p h flags projectPaths s).1.customRuleModes k = s.customRuleModes k) ∧
    (Initialize p h flags projectPaths s).1.superprojectTypeFilter
      = s.superprojectTypeFilter ∧
    (Initialize p h flags projectPaths s).1.recursive = s.recursive ∧
    (Initialize p h flags projectPaths s).1.reportFilePath = s.reportFilePath ∧
    (Initialize p h flags projectPaths s).1.verbose = s.verbose ∧
    (Initialize p h flags projectPaths s).1.versionMode = s.versionMode ∧
    TargetPaths (Initialize p h flags projectPaths s).1 = TargetPaths s ∧
    (Initialize p h flags projectPaths s).1.logFormatter = s.logFormatter ∧
    (Initialize p h flags projectPaths s).1.logLevel = s.logLevel ∧
    (Initialize p h flags projectPaths s).1.logOutput = s.logOutput := by
  have hstep : complianceStep flags s = Ctl.ret { s with customRuleModes :=
        (((s.customRuleModes.set rulemode.Type_.Strict
          (rulemode.ComplianceModeFromString (flags.GetString "compliance")).1).set
          rulemode.Type_.Specification
          (rulemode.ComplianceModeFromString (flags.GetString "compliance")).2.1).set
          rulemode.Type_.Permissive
          (rulemode.ComplianceModeFromString (flags.GetString "compliance")).2.2.1) }
      (some ("--compliance flag value " ++ flags.GetString "compliance" ++ " not valid")) := by
    unfold complianceStep
    simp only []
    rw [if_pos hne, if_pos hrej]
  rw [Initialize_of_ret p h flags projectPaths s _ _
    (by rw [Initialize.body_eq_afterCompliance, hstep]; rfl)]
  refine ⟨rfl, rfl, ?_, rfl, rfl, rfl, rfl, rfl, rfl, rfl, rfl, rfl⟩
  intro k h1 h2 h3
  simp [GoMap.set, h1, h2, h3]

/-- C6, witness: `--compliance bogus` together with `--library-manager
submission` and `ARDUINO_LINT_OFFICIAL=true`: the call returns the compliance
error and the override map has no LibraryManagerSubmission or Official entry. -/
theorem Initialize_compliance_rejected_witness :
    (Initialize Parsers.lenient (Host.ofEnv [("ARDUINO_LINT_OFFICIAL", "true")])
      (FlagSet.ofList [("compliance", "bogus"), ("library-manager", "submission")])
      ["sketch"] State.init).2
      = Outcome.returned (some "--compliance flag value bogus not valid") ∧
    (Initialize Parsers.lenient (Host.ofEnv [("ARDUINO_LINT_OFFICIAL", "true")])
      (FlagSet.ofList [("compliance", "bogus"), ("library-manager", "submission")])
      ["sketch"] State.init).1.customRuleModes rulemode.Type_.LibraryManagerSubmission
      = none ∧
    (Initialize Parsers.lenient (Host.ofEnv [("ARDUINO_LINT_OFFICIAL", "true")])
      (FlagSet.ofList [("compliance", "bogus"), ("library-manager", "submission")])
      ["sketch"] State.init).1.customRuleModes rulemode.Type_.Official = none ∧
    TargetPaths (Initialize Parsers.lenient (Host.ofEnv [("ARDUINO_LINT_OFFICIAL", "true")])
      (FlagSet.ofList [("compliance", "bogus"), ("library-manager", "submission")])
      ["sketch"] State.init).1 = [] := by
  have w := Initialize_compliance_rejected Parsers.lenient
    (Host.ofEnv [("ARDUINO_LINT_OFFICIAL", "true")])
    (FlagSet.ofList [("compliance", "bogus"), ("library-manager", "submission")])
    ["sketch"] State.init (by decide) (by decide)
  refine ⟨?_, ?_, ?_, ?_⟩
  · rw [w.1]
    decide
  · rw [w.2.2.1 _ (by decide) (by decide) (by decide)]
    rfl
  · rw [w.2.2.1 _ (by decide) (by decide) (by decide)]
    rfl
  · rw [w.2.2.2.2.2.2.2.2.1]
    rfl

end configuration

namespace platformtxt

theorem platformTxtInterface_fold_other
    (PropertiesToMap : properties.Map → Int → GoMap String Interface)
    (platformTxt : properties.Map) (key : String)
    (hp : strings.HasPrefix key "tools." = false) (ht : key ≠ "tools")
    (keys : List String) (doc : GoMap String Interface) :
    keys.foldl
        (fun doc key =>
          if strings.HasPrefix key "tools." then
            doc.set "tools"
              (Interface.map (PropertiesToMap (properties.Map.SubTree platformTxt "tools") 3))
          else
            doc.set key (Interface.string (properties.Map.Get platformTxt key)))
        doc key
      = if key ∈ keys then some (Interface.string (properties.Map.Get platformTxt key))
        else doc key := by
  induction keys generalizing doc with
  | nil => simp
  | cons k rest ih =>
    rw [List.foldl_cons, ih]
    by_cases hmem : key ∈ rest
    · simp [hmem]
    · by_cases hk : key = k
      · subst hk
        simp [hmem, hp, GoMap.set]
      · by_cases hpk : strings.HasPrefix k "tools." = true
        · simp [hmem, hk, hpk, GoMap.set, ht]
        · simp [hmem, hk, hpk, GoMap.set]

/-- C9 (amended): for every properties map and every key of it that does not
start with "tools." and is not "tools" itself, the normalized document has an
entry at exactly that key whose value is the string the properties map holds
for the key. -/
theorem platformTxtInterface_passes_key_through
    (PropertiesToMap : properties.Map → Int → GoMap String Interface)
    (platformTxt : properties.Map) (key : String)
    (hkey : key ∈ properties.Map.Keys platformTxt)
    (hp : strings.HasPrefix key "tools." = false) (ht : key ≠ "tools") :
    platformTxtInterface PropertiesToMap platformTxt key
      = some (Interface.string (properties.Map.Get platformTxt key)) := by
  unfold platformTxtInterface
  rw [platformTxtInterface_fold_other PropertiesToMap platformTxt key hp ht, if_pos hkey]

/-- C9, witness: the key `name` of a platform.txt that also has tool properties. -/
theorem platformTxtInterface_passes_key_through_witness :
    platformTxtInterface flatPropertiesToMap
        [("name", "My Boards"), ("tools.avrdude.path", "x")] "name"
      = some (Interface.string "My Boards") :=
  platformTxtInterface_passes_key_through flatPropertiesToMap
    [("name", "My Boards"), ("tools.avrdude.path", "x")] "name"
    (by decide) (by decide) (by decide)

/-- C9, counterexample: the key "tools" does not start with "tools.", and when
a key "tools.avrdude.path" follows it, the normalized document holds the
nested tools map at "tools", not the string of the properties map. -/
theorem platformTxtInterface_passes_key_through_counterexample :
    "tools" ∈ properties.Map.Keys [("tools", "x"), ("tools.avrdude.path", "y")] ∧
    strings.HasPrefix "tools" "tools." = false ∧
    properties.Map.Get [("tools", "x"), ("tools.avrdude.path", "y")] "tools" = "x" ∧
    platformTxtInterface flatPropertiesToMap
        [("tools", "x"), ("tools.avrdude.path", "y")] "tools"
      = some (Interface.map (flatPropertiesToMap [("avrdude.path", "y")] 3)) ∧
    platformTxtInterface flatPropertiesToMap
        [("tools", "x"), ("tools.avrdude.path", "y")] "tools"
      ≠ some (Interface.string "x") := by
  have e : platformTxtInterface flatPropertiesToMap
        [("tools", "x"), ("tools.avrdude.path", "y")] "tools"
      = some (Interface.map (flatPropertiesToMap [("avrdude.path", "y")] 3)) := by
    rfl
  refine ⟨by decide, by decide, by decide, e, ?_⟩
  rw [e]
  simp

end platformtxt

namespace platformtxt

theorem compiledSchemaObject_set (schemaObject : GoMap compliancelevel.Type_ schema.Schema)
    (hso : schemaObject = GoMap.empty ∨ ∃ a b c, schemaObject = compiledSchemaObject a b c)
    (permissive specification strict : schema.Schema) :
    (((schemaObject.set compliancelevel.Type_.Permissive permissive).set
      compliancelevel.Type_.Specification specification).set
      compliancelevel.Type_.Strict strict)
      = compiledSchemaObject permissive specification strict := by
  funext k
  rcases hso with h | ⟨a, b, c, h⟩
  · subst h
    rfl
  · subst h
    cases k <;> simp [compiledSchemaObject, GoMap.set, GoMap.empty]

end platformtxt

namespace platformtxt

/-- After the compile step `schemaObject` holds the three compiled schemas,
whether they were compiled in this call or an earlier one. -/
theorem compileSchemas_schemaObject (f : schema.Functions)
    (permissive specification strict : schema.Schema)
    (hp : f.Compile "arduino-platform-txt-permissive-schema.json" referencedSchemaFilenames
      = some permissive)
    (hs : f.Compile "arduino-platform-txt-schema.json" referencedSchemaFilenames
      = some specification)
    (ht : f.Compile "arduino-platform-txt-strict-schema.json" referencedSchemaFilenames
      = some strict)
    (st : State)
    (hso : st.schemaObject = GoMap.empty ∨
      st.schemaObject = compiledSchemaObject permissive specification strict) :
    ∃ st1, compileSchemas f st = some st1 ∧
      st1.schemaObject = compiledSchemaObject permissive specification strict := by
  unfold compileSchemas
  split
  · simp only [hp, hs, ht]
    refine ⟨_, rfl, ?_⟩
    apply compiledSchemaObject_set
    rcases hso with h | h
    · exact Or.inl h
    · exact Or.inr ⟨_, _, _, h⟩
  · rename_i hcached
    rcases hso with h | h
    · exact absurd (by rw [h]; rfl) hcached
    · exact ⟨st, rfl, h⟩

theorem ValidateAll_schemaObject (f : schema.Functions)
    (PropertiesToMap : properties.Map → Int → GoMap String Interface)
    (permissive specification strict : schema.Schema)
    (hp : f.Compile "arduino-platform-txt-permissive-schema.json" referencedSchemaFilenames
      = some permissive)
    (hs : f.Compile "arduino-platform-txt-schema.json" referencedSchemaFilenames
      = some specification)
    (ht : f.Compile "arduino-platform-txt-strict-schema.json" referencedSchemaFilenames
      = some strict)
    (calls : List properties.Map) (st : State)
    (hso : st.schemaObject = GoMap.empty ∨
      st.schemaObject = compiledSchemaObject permissive specification strict) :
    ∃ st1 results, ValidateAll f PropertiesToMap st calls = some (st1, results) ∧
      (st1.schemaObject = GoMap.empty ∨
        st1.schemaObject = compiledSchemaObject permissive specification strict) := by
  induction calls generalizing st with
  | nil => exact ⟨st, [], rfl, hso⟩
  | cons platformTxt rest ih =>
    obtain ⟨st1, e1, h1⟩ :=
      compileSchemas_schemaObject f permissive specification strict hp hs ht st hso
    obtain ⟨st2, results, e2, h2⟩ := ih st1 (Or.inr h1)
    refine ⟨st2, validationResults f (platformTxtInterface PropertiesToMap platformTxt)
      st1.schemaObject :: results, ?_, h2⟩
    unfold ValidateAll Validate
    rw [e1]
    simp only []
    rw [e2]

/-- C8: for every platform.txt properties map, whatever `Validate` calls came
before it in the process, `Validate` returns a map with exactly the three keys
Permissive, Specification and Strict, and the value at each level is
`schema.Validate` applied to one and the same normalized document and that
level's compiled platform.txt schema (`schema.Compile` is taken to return
those three schemas rather than panic). -/
theorem Validate_three_levels (f : schema.Functions)
    (PropertiesToMap : properties.Map → Int → GoMap String Interface)
    (permissive specification strict : schema.Schema)
    (hp : f.Compile "arduino-platform-txt-permissive-schema.json" referencedSchemaFilenames
      = some permissive)
    (hs : f.Compile "arduino-platform-txt-schema.json" referencedSchemaFilenames
      = some specification)
    (ht : f.Compile "arduino-platform-txt-strict-schema.json" referencedSchemaFilenames
      = some strict)
    (earlier : List properties.Map) (platformTxt : properties.Map) :
    ∃ st results, ValidateAll f PropertiesToMap State.init earlier = some (st, results) ∧
      ∃ st1 result, Validate f PropertiesToMap st platformTxt = some (st1, result) ∧
        result compliancelevel.Type_.Permissive
          = some (f.Validate (platformTxtInterface PropertiesToMap platformTxt) permissive) ∧
        result compliancelevel.Type_.Specification
          = some (f.Validate (platformTxtInterface PropertiesToMap platformTxt) specification) ∧
        result compliancelevel.Type_.Strict
          = some (f.Validate (platformTxtInterface PropertiesToMap platformTxt) strict) ∧
        ∀ n, result (compliancelevel.Type_.Other n) = none := by
  obtain ⟨st, results, e, hso⟩ := ValidateAll_schemaObject f PropertiesToMap permissive
    specification strict hp hs ht earlier State.init (Or.inl rfl)
  obtain ⟨st1, e1, h1⟩ :=
    compileSchemas_schemaObject f permissive specification strict hp hs ht st hso
  refine ⟨st, results, e, st1, validationResults f
    (platformTxtInterface PropertiesToMap platformTxt) st1.schemaObject, ?_, ?_, ?_, ?_, ?_⟩
  · unfold Validate
    rw [e1]
  · rw [h1]
    rfl
  · rw [h1]
    rfl
  · rw [h1]
    rfl
  · intro n
    rfl

/-- C8, witness: a second call in a process, with a schema package that
compiles every schema and passes every document. -/
theorem Validate_three_levels_witness :
    ∃ st results,
      ValidateAll passingSchema flatPropertiesToMap State.init [[("name", "a")]]
        = some (st, results) ∧
      ∃ st1 result,
        Validate passingSchema flatPropertiesToMap st [("name", "b"), ("tools.t.path", "p")]
          = some (st1, result) ∧
        result compliancelevel.Type_.Permissive = some (schema.ValidationResult.mk none) ∧
        result compliancelevel.Type_.Specification = some (schema.ValidationResult.mk none) ∧
        result compliancelevel.Type_.Strict = some (schema.ValidationResult.mk none) ∧
        ∀ n, result (compliancelevel.Type_.Other n) = none :=
  Validate_three_levels passingSchema flatPropertiesToMap
    (schema.Schema.mk (some (jsonschema.Schema.mk "arduino-platform-txt-permissive-schema.json")))
    (schema.Schema.mk (some (jsonschema.Schema.mk "arduino-platform-txt-schema.json")))
    (schema.Schema.mk (some (jsonschema.Schema.mk "arduino-platform-txt-strict-schema.json")))
    rfl rfl rfl [[("name", "a")]] [("name", "b"), ("tools.t.path", "p")]

end platformtxt

namespace schema

theorem occursIn_nil (text : List Char) : occursIn [] text = true := by
  cases text <;> simp [occursIn]

/-- C10 (amended): with all four patterns empty (an empty pattern matches
every string), `ValidationErrorMatch` returns true if and only if the result
is a failure (its `Result` is not nil); on a passing result it returns false. -/
theorem ValidationErrorMatch_empty_queries (m : Matching)
    (hempty : ∀ s, m.MatchString "" s = true) (validationResult : ValidationResult) :
    ValidationErrorMatch m "" "" "" "" validationResult = true
      ↔ validationResult.Result ≠ none := by
  unfold ValidationErrorMatch
  cases validationResult.Result with
  | none => simp
  | some validationError => simp [hempty]

/-- C10, witness: the failing result of the test, with the stand-in matcher. -/
theorem ValidationErrorMatch_empty_queries_witness :
    ValidationErrorMatch Matching.literal "" "" "" "" patternMismatchResult = true
      ↔ patternMismatchResult.Result ≠ none :=
  ValidationErrorMatch_empty_queries Matching.literal (fun s => occursIn_nil s.data)
    patternMismatchResult

/-- C10, counterexample: on the passing result the matcher with four empty
patterns returns false, and on a failing result it returns true, as
`TestValidationErrorMatch` asserts. -/
theorem ValidationErrorMatch_empty_queries_counterexample :
    passingResult.Result = none ∧
    ValidationErrorMatch Matching.literal "" "" "" "" passingResult = false ∧
    patternMismatchResult.Result ≠ none ∧
    ValidationErrorMatch Matching.literal "" "" "" "" patternMismatchResult = true := by
  refine ⟨rfl, rfl, by decide, by decide⟩

end schema

namespace schema

/-- C11: on a validation result that is success (`Result` is nil), for every
property name, RequiredPropertyMissing, PropertyPatternMismatch,
PropertyLessThanMinLength, PropertyGreaterThanMaxLength, PropertyEnumMismatch
and PropertyDependenciesMissing applied to that name return false, and so does
MisspelledOptionalPropertyFound applied to the result. -/
theorem predicates_false_on_success (m : Matching) (propertyName : String)
    (validationResult : ValidationResult) (hsuccess : validationResult.Result = none) :
    RequiredPropertyMissing m propertyName validationResult = false ∧
    PropertyPatternMismatch m propertyName validationResult = false ∧
    PropertyLessThanMinLength m propertyName validationResult = false ∧
    PropertyGreaterThanMaxLength m propertyName validationResult = false ∧
    PropertyEnumMismatch m propertyName validationResult = false ∧
    PropertyDependenciesMissing m propertyName validationResult = false ∧
    MisspelledOptionalPropertyFound m validationResult = false := by
  have hmatch : ∀ a b c d, ValidationErrorMatch m a b c d validationResult = false := by
    intro a b c d
    unfold ValidationErrorMatch
    rw [hsuccess]
  refine ⟨?_, hmatch _ _ _ _, hmatch _ _ _ _, hmatch _ _ _ _, hmatch _ _ _ _, hmatch _ _ _ _,
    hmatch _ _ _ _⟩
  unfold RequiredPropertyMissing
  rw [hmatch, hmatch]
  rfl

/-- C11, witness: the passing result of the tests and the property `property1`. -/
theorem predicates_false_on_success_witness :
    passingResult.Result = none ∧
    RequiredPropertyMissing Matching.literal "property1" passingResult = false ∧
    PropertyPatternMismatch Matching.literal "property1" passingResult = false ∧
    PropertyLessThanMinLength Matching.literal "property1" passingResult = false ∧
    PropertyGreaterThanMaxLength Matching.literal "property1" passingResult = false ∧
    PropertyEnumMismatch Matching.literal "property1" passingResult = false ∧
    PropertyDependenciesMissing Matching.literal "property1" passingResult = false ∧
    MisspelledOptionalPropertyFound Matching.literal passingResult = false :=
  ⟨rfl, predicates_false_on_success Matching.literal "property1" passingResult rfl⟩

end schema

namespace configuration

theorem Ctl.andThen_next (s : State) (rest : State → Ctl) :
    (Ctl.next s).andThen rest = rest s := rfl

theorem Ctl.andThen_ret (s : State) (err : GoError) (rest : State → Ctl) :
    (Ctl.ret s err).andThen rest = Ctl.ret s err := rfl

theorem libraryManagerStep_entries (flags : FlagSet) (s : State) :
    (libraryManagerStep flags s).state.customRuleModes
        rulemode.Type_.LibraryManagerSubmission
      = (if flags.GetString "library-manager" ≠ "" then
          some (rulemode.LibraryManagerModeFromString (flags.GetString "library-manager")).1
        else s.customRuleModes rulemode.Type_.LibraryManagerSubmission) ∧
    (libraryManagerStep flags s).state.customRuleModes rulemode.Type_.LibraryManagerIndexed
      = (if flags.GetString "library-manager" ≠ "" then
          some (rulemode.LibraryManagerModeFromString (flags.GetString "library-manager")).2.1
        else s.customRuleModes rulemode.Type_.LibraryManagerIndexed) ∧
    (libraryManagerStep flags s).state.customRuleModes rulemode.Type_.LibraryManagerIndexing
      = (if flags.GetString "library-manager" ≠ "" then
          some (rulemode.LibraryManagerModeFromString (flags.GetString "library-manager")).2.2.1
        else s.customRuleModes rulemode.Type_.LibraryManagerIndexing) := by
  unfold libraryManagerStep
  simp only []
  split
  · split <;> simp [Ctl.state, GoMap.set]
  · simp [Ctl.state]

/-- With `ARDUINO_LINT_LIBRARY_MANAGER_INDEXING` set to a string that parses as
false, the statements of lines 60-70 change nothing. -/
theorem libraryManagerIndexingStep_false (h : Host) (v : String)
    (henv : h.LookupEnv "ARDUINO_LINT_LIBRARY_MANAGER_INDEXING" = some v)
    (hv : strconv.ParseBool v = (false, none)) (s : State) :
    libraryManagerIndexingStep h s = Ctl.next s := by
  unfold libraryManagerIndexingStep
  simp [henv, hv]

/-- The library-manager entries after a call in which the environment step
changes nothing and `k` is one of the three library-manager rule modes: the
entries in which the `--library-manager` step ended. -/
theorem Initialize_libraryManager_entry (p : Parsers) (h : Host) (flags : FlagSet)
    (projectPaths : List String) (s : State) (k : rulemode.Type_)
    (hk1 : k ≠ rulemode.Type_.Strict) (hk2 : k ≠ rulemode.Type_.Specification)
    (hk3 : k ≠ rulemode.Type_.Permissive) (hk4 : k ≠ rulemode.Type_.Official)
    (hstep : ∀ t, libraryManagerIndexingStep h t = Ctl.next t) :
    (Initialize p h flags projectPaths s).1.customRuleModes k
      = if Initialize.assignsLibraryManagerFlag p flags = true then
          (libraryManagerStep flags s).state.customRuleModes k
        else s.customRuleModes k := by
  rw [Initialize_state, Initialize.body_eq]
  unfold Initialize.assignsLibraryManagerFlag
  by_cases hc : flags.GetString "compliance" = "" ∨
      (rulemode.ComplianceModeFromString (flags.GetString "compliance")).2.2.2 = none
  · obtain ⟨s1, e1⟩ := complianceStep_next flags s hc
    have f1 := complianceStep_frame flags s
    rw [e1] at f1
    simp only [Ctl.state] at f1
    rw [e1, Ctl.andThen_next]
    by_cases hf : (p.outputformatFromString (flags.GetString "format")).2 = none
    · obtain ⟨s2, e2⟩ := formatStep_next p flags s1 hf
      have f2 := formatStep_frame p flags s1
      rw [e2] at f2
      simp only [Ctl.state] at f2
      rw [e2, Ctl.andThen_next]
      have hkeep : (libraryManagerStep flags s2).state.customRuleModes k
          = if flags.GetString "library-manager" ≠ "" then
              (libraryManagerStep flags s).state.customRuleModes k
            else s.customRuleModes k := by
        have f3 : s2.customRuleModes k = s.customRuleModes k := by
          rw [f2, f1 k hk1 hk2 hk3]
        unfold libraryManagerStep
        simp only []
        by_cases hl : flags.GetString "library-manager" = ""
        · simp [hl, Ctl.state, f3]
        · by_cases herr :
              (rulemode.LibraryManagerModeFromString
                (flags.GetString "library-manager")).2.2.2 = none
          · simp [hl, herr, Ctl.state, GoMap.set, f3]
          · simp [hl, herr, Ctl.state, GoMap.set, f3]
      have hfinal : ((libraryManagerStep flags s2).andThen fun s =>
            (libraryManagerIndexingStep h s).andThen fun s =>
            Initialize.afterIndexing p h flags projectPaths s).state.customRuleModes k
          = (libraryManagerStep flags s2).state.customRuleModes k := by
        cases hl : libraryManagerStep flags s2 with
        | next s3 =>
          rw [Ctl.andThen_next, hstep s3, Ctl.andThen_next]
          exact Initialize.afterIndexing_frame p h flags projectPaths s3 k hk4
        | ret s3 err => rfl
        | panic s3 msg => rfl
      rw [hfinal, hkeep]
      by_cases hl : flags.GetString "library-manager" = ""
      · simp [hl]
      · simp [hc, hf, hl]
    · have hret : ∃ s2, formatStep p flags s1 = Ctl.ret s2
            (some ("--format flag value " ++ flags.GetString "format" ++ " not valid")) ∧
          s2.customRuleModes = s1.customRuleModes := by
        unfold formatStep
        simp only []
        rw [if_pos hf]
        exact ⟨_, rfl, rfl⟩
      obtain ⟨s2, e2, f2⟩ := hret
      rw [e2, Ctl.andThen_ret]
      simp only [Ctl.state]
      rw [f2, f1 k hk1 hk2 hk3]
      simp [hf]
  · have hne : flags.GetString "compliance" ≠ "" := fun e => hc (Or.inl e)
    have herr : (rulemode.ComplianceModeFromString (flags.GetString "compliance")).2.2.2
        ≠ none := fun e => hc (Or.inr e)
    have hret : ∃ s1 err, complianceStep flags s = Ctl.ret s1 err := by
      unfold complianceStep
      simp only []
      rw [if_pos hne, if_pos herr]
      exact ⟨_, _, rfl⟩
    obtain ⟨s1, err, e1⟩ := hret
    have f1 := complianceStep_frame flags s k hk1 hk2 hk3
    rw [e1] at f1
    simp only [Ctl.state] at f1
    rw [e1, Ctl.andThen_ret]
    simp only [Ctl.state]
    rw [f1]
    simp [hc]

/-- C12: if `ARDUINO_LINT_LIBRARY_MANAGER_INDEXING` is set to a string that
parses as boolean false, the environment step of `Initialize` changes nothing,
and after the call each of the three library-manager entries of the override
map is the value assigned for the `--library-manager` flag in the same call
(when the call gets to that assignment with a non-empty flag value), and
otherwise is as it was before the call. -/
theorem Initialize_indexing_false_untouched (p : Parsers) (h : Host) (flags : FlagSet)
    (projectPaths : List String) (s : State) (v : String)
    (henv : h.LookupEnv "ARDUINO_LINT_LIBRARY_MANAGER_INDEXING" = some v)
    (hv : strconv.ParseBool v = (false, none)) :
    (∀ t, libraryManagerIndexingStep h t = Ctl.next t) ∧
    (Initialize p h flags projectPaths s).1.customRuleModes
        rulemode.Type_.LibraryManagerSubmission
      = (if Initialize.assignsLibraryManagerFlag p flags = true then
          some (rulemode.LibraryManagerModeFromString (flags.GetString "library-manager")).1
        else s.customRuleModes rulemode.Type_.LibraryManagerSubmission) ∧
    (Initialize p h flags projectPaths s).1.customRuleModes
        rulemode.Type_.LibraryManagerIndexed
      = (if Initialize.assignsLibraryManagerFlag p flags = true then
          some (rulemode.LibraryManagerModeFromString (flags.GetString "library-manager")).2.1
        else s.customRuleModes rulemode.Type_.LibraryManagerIndexed) ∧
    (Initialize p h flags projectPaths s).1.customRuleModes
        rulemode.Type_.LibraryManagerIndexing
      = (if Initialize.assignsLibraryManagerFlag p flags = true then
          some (rulemode.LibraryManagerModeFromString (flags.GetString "library-manager")).2.2.1
        else s.customRuleModes rulemode.Type_.LibraryManagerIndexing) := by
  have hstep := libraryManagerIndexingStep_false h v henv hv
  have hflag : Initialize.assignsLibraryManagerFlag p flags = true →
      flags.GetString "library-manager" ≠ "" := by
    unfold Initialize.assignsLibraryManagerFlag
    intro hw
    exact (of_decide_eq_true hw).2.2
  obtain ⟨e1, e2, e3⟩ := libraryManagerStep_entries flags s
  refine ⟨hstep, ?_, ?_, ?_⟩
  · rw [Initialize_libraryManager_entry p h flags projectPaths s _ (by decide) (by decide)
      (by decide) (by decide) hstep]
    split
    · rename_i hw
      rw [e1, if_pos (hflag hw)]
    · rfl
  · rw [Initialize_libraryManager_entry p h flags projectPaths s _ (by decide) (by decide)
      (by decide) (by decide) hstep]
    split
    · rename_i hw
      rw [e2, if_pos (hflag hw)]
    · rfl
  · rw [Initialize_libraryManager_entry p h flags projectPaths s _ (by decide) (by decide)
      (by decide) (by decide) hstep]
    split
    · rename_i hw
      rw [e3, if_pos (hflag hw)]
    · rfl

/-- C12, witness: `ARDUINO_LINT_LIBRARY_MANAGER_INDEXING=false` with
`--library-manager submission` leaves the values of the flag; with the flag
unset an earlier LibraryManagerIndexed=true stays. -/
theorem Initialize_indexing_false_untouched_witness :
    strconv.ParseBool "false" = (false, none) ∧
    (Initialize Parsers.lenient
        (Host.ofEnv [("ARDUINO_LINT_LIBRARY_MANAGER_INDEXING", "false")])
        (FlagSet.ofList [("library-manager", "submission")]) [] State.init).1.customRuleModes
        rulemode.Type_.LibraryManagerSubmission = some true ∧
    (Initialize Parsers.lenient
        (Host.ofEnv [("ARDUINO_LINT_LIBRARY_MANAGER_INDEXING", "false")])
        (FlagSet.ofList [("library-manager", "submission")]) [] State.init).1.customRuleModes
        rulemode.Type_.LibraryManagerIndexing = some false ∧
    (Initialize Parsers.lenient
        (Host.ofEnv [("ARDUINO_LINT_LIBRARY_MANAGER_INDEXING", "false")])
        (FlagSet.ofList []) []
        (State.withOverride rulemode.Type_.LibraryManagerIndexed true)).1.customRuleModes
        rulemode.Type_.LibraryManagerIndexed = some true := by
  have w1 := Initialize_indexing_false_untouched Parsers.lenient
    (Host.ofEnv [("ARDUINO_LINT_LIBRARY_MANAGER_INDEXING", "false")])
    (FlagSet.ofList [("library-manager", "submission")]) [] State.init "false"
    (by decide) (by decide)
  have w2 := Initialize_indexing_false_untouched Parsers.lenient
    (Host.ofEnv [("ARDUINO_LINT_LIBRARY_MANAGER_INDEXING", "false")])
    (FlagSet.ofList []) [] (State.withOverride rulemode.Type_.LibraryManagerIndexed true)
    "false" (by decide) (by decide)
  refine ⟨by decide, ?_, ?_, ?_⟩
  · rw [w1.2.1]
    decide
  · rw [w1.2.2.2]
    decide
  · rw [w2.2.2.1]
    decide

end configuration

namespace platformtxt

/-- C13, the code at the failing input: the same two properties in two key
orders. With `tools` before `tools.avrdude.path` the entry "tools" of the
normalized document is the nested tools map; with `tools` after it the entry
is the string of the key `tools`, the tools map is overwritten, and the two
documents differ. -/
theorem platformTxtInterface_key_order_divergence :
    List.Perm [("tools", "x"), ("tools.avrdude.path", "y")]
      [("tools.avrdude.path", "y"), ("tools", "x")] ∧
    platformTxtInterface flatPropertiesToMap
        [("tools", "x"), ("tools.avrdude.path", "y")] "tools"
      = some (Interface.map (flatPropertiesToMap [("avrdude.path", "y")] 3)) ∧
    platformTxtInterface flatPropertiesToMap
        [("tools.avrdude.path", "y"), ("tools", "x")] "tools"
      = some (Interface.string "x") ∧
    platformTxtInterface flatPropertiesToMap [("tools", "x"), ("tools.avrdude.path", "y")]
      ≠ platformTxtInterface flatPropertiesToMap
          [("tools.avrdude.path", "y"), ("tools", "x")] := by
  have e1 : platformTxtInterface flatPropertiesToMap
        [("tools", "x"), ("tools.avrdude.path", "y")] "tools"
      = some (Interface.map (flatPropertiesToMap [("avrdude.path", "y")] 3)) := rfl
  have e2 : platformTxtInterface flatPropertiesToMap
        [("tools.avrdude.path", "y"), ("tools", "x")] "tools"
      = some (Interface.string "x") := rfl
  refine ⟨List.Perm.swap _ _ _, e1, e2, ?_⟩
  intro hdoc
  have hentry := congrFun hdoc "tools"
  rw [e1, e2] at hentry
  simp at hentry

end platformtxt

namespace configuration

theorem Ctl.andThen_assoc (c : Ctl) (f g : State → Ctl) :
    (c.andThen f).andThen g = c.andThen fun s => (f s).andThen g := by
  cases c <;> rfl

theorem Initialize.body_eq_beforeTargetPaths (p : Parsers) (h : Host) (flags : FlagSet)
    (projectPaths : List String) (s : State) :
    Initialize.body p h flags projectPaths s =
      (Initialize.beforeTargetPaths p h flags s).andThen fun s =>
      (targetPathsStep h projectPaths s).andThen fun s =>
      (officialStep h s).andThen fun s =>
      Ctl.ret s none := by
  unfold Initialize.body Initialize.beforeTargetPaths
  simp only [Ctl.andThen_assoc]

theorem Ctl.fallsThrough_eq (c : Ctl) (hc : c.fallsThrough = true) : ∃ s, c = Ctl.next s := by
  cases c with
  | next s => exact ⟨s, rfl⟩
  | ret s err => exact absurd hc (by simp [Ctl.fallsThrough])
  | panic s msg => exact absurd hc (by simp [Ctl.fallsThrough])

end configuration

namespace configuration

end configuration

namespace configuration

theorem Initialize.body_eq_beforeOfficial (p : Parsers) (h : Host) (flags : FlagSet)
    (projectPaths : List String) (s : State) :
    Initialize.body p h flags projectPaths s =
      (Initialize.beforeOfficial p h flags projectPaths s).andThen fun s =>
      (officialStep h s).andThen fun s =>
      Ctl.ret s none := by
  rw [Initialize.body_eq_beforeTargetPaths]
  unfold Initialize.beforeOfficial
  rw [Ctl.andThen_assoc]

/-- What `strconv.ParseBool` returns with an error: false. -/
theorem ParseBool_invalid (v : String) (hv : (strconv.ParseBool v).2 ≠ none) :
    (strconv.ParseBool v).1 = false := by
  unfold strconv.ParseBool at hv ⊢
  split_ifs at hv ⊢ <;> simp_all

/-- With `ARDUINO_LINT_OFFICIAL` unset the statements of lines 127-132 change nothing. -/
theorem officialStep_unset (h : Host) (hunset : h.LookupEnv "ARDUINO_LINT_OFFICIAL" = none)
    (s : State) : officialStep h s = Ctl.next s := by
  unfold officialStep
  rw [hunset]

theorem Initialize.afterIndexing_frame_unset (p : Parsers) (h : Host) (flags : FlagSet)
    (projectPaths : List String) (s : State)
    (hunset : h.LookupEnv "ARDUINO_LINT_OFFICIAL" = none) :
    (Initialize.afterIndexing p h flags projectPaths s).state.customRuleModes
      = s.customRuleModes := by
  unfold Initialize.afterIndexing
  apply Ctl.andThen_state (fun t => t.customRuleModes = s.customRuleModes)
  · rw [logFormatStep_frame]
  intro s1 e1
  apply Ctl.andThen_state (fun t => t.customRuleModes = s.customRuleModes)
  · rw [logLevelStep_frame, e1]
  intro s2 e2
  apply Ctl.andThen_state (fun t => t.customRuleModes = s.customRuleModes)
  · rw [projectTypeStep_frame, e2]
  intro s3 e3
  apply Ctl.andThen_state (fun t => t.customRuleModes = s.customRuleModes)
  · rw [plainFlagsStep_frame, e3]
  intro s4 e4
  apply Ctl.andThen_state (fun t => t.customRuleModes = s.customRuleModes)
  · rw [targetPathsStep_frame, e4]
  intro s5 e5
  rw [officialStep_unset h hunset s5, Ctl.andThen_next]
  exact e5

/-- C15: if `ARDUINO_LINT_OFFICIAL` is set to a string that is not a valid
boolean and `Initialize` reaches the official-mode step, `Initialize` returns
the error for that value and the override map ends with the entry
Official=false; with the variable unset the Official entry of the override map
is as it was before the call. -/
theorem Initialize_official_invalid (p : Parsers) (h : Host) (flags : FlagSet)
    (projectPaths : List String) (s : State) :
    (∀ v, h.LookupEnv "ARDUINO_LINT_OFFICIAL" = some v →
      (strconv.ParseBool v).2 ≠ none →
      (Initialize.beforeOfficial p h flags projectPaths s).fallsThrough = true →
      (Initialize p h flags projectPaths s).2 = Outcome.returned
          (some ("ARDUINO_LINT_OFFICIAL environment variable value " ++ v ++ " not valid")) ∧
      (Initialize p h flags projectPaths s).1.customRuleModes rulemode.Type_.Official
        = some false) ∧
    (h.LookupEnv "ARDUINO_LINT_OFFICIAL" = none →
      (Initialize p h flags projectPaths s).1.customRuleModes rulemode.Type_.Official
        = s.customRuleModes rulemode.Type_.Official) := by
  constructor
  · intro v henv hv hreach
    obtain ⟨s9, e9⟩ := Ctl.fallsThrough_eq _ hreach
    have hstep : officialStep h s9 = Ctl.ret
        { s9 with customRuleModes := s9.customRuleModes.set rulemode.Type_.Official false }
        (some ("ARDUINO_LINT_OFFICIAL environment variable value " ++ v ++ " not valid")) := by
      unfold officialStep
      rw [henv]
      simp only []
      rw [if_pos hv, ParseBool_invalid v hv]
    rw [Initialize_of_ret p h flags projectPaths s _ _
      (by rw [Initialize.body_eq_beforeOfficial, e9, Ctl.andThen_next, hstep]; rfl)]
    exact ⟨rfl, by simp [GoMap.set]⟩
  · intro hunset
    rw [Initialize_state, Initialize.body_eq]
    apply Ctl.andThen_state (fun t => t.customRuleModes rulemode.Type_.Official
      = s.customRuleModes rulemode.Type_.Official)
    · exact complianceStep_frame flags s _ (by decide) (by decide) (by decide)
    intro s1 e1
    apply Ctl.andThen_state (fun t => t.customRuleModes rulemode.Type_.Official
      = s.customRuleModes rulemode.Type_.Official)
    · rw [formatStep_frame, e1]
    intro s2 e2
    apply Ctl.andThen_state (fun t => t.customRuleModes rulemode.Type_.Official
      = s.customRuleModes rulemode.Type_.Official)
    · rw [libraryManagerStep_frame flags s2 _ (by decide) (by decide) (by decide), e2]
    intro s3 e3
    apply Ctl.andThen_state (fun t => t.customRuleModes rulemode.Type_.Official
      = s.customRuleModes rulemode.Type_.Official)
    · rw [libraryManagerIndexingStep_frame h s3 _ (by decide) (by decide) (by decide), e3]
    intro s4 e4
    rw [Initialize.afterIndexing_frame_unset p h flags projectPaths s4 hunset, e4]

/-- C15, witness: `ARDUINO_LINT_OFFICIAL=maybe` gives the error and the entry
Official=false; with the variable unset the override map has no Official entry. -/
theorem Initialize_official_invalid_witness :
    ((Initialize Parsers.lenient (Host.ofEnv [("ARDUINO_LINT_OFFICIAL", "maybe")])
        (FlagSet.ofList []) [] State.init).2
        = Outcome.returned
          (some "ARDUINO_LINT_OFFICIAL environment variable value maybe not valid") ∧
      (Initialize Parsers.lenient (Host.ofEnv [("ARDUINO_LINT_OFFICIAL", "maybe")])
        (FlagSet.ofList []) [] State.init).1.customRuleModes rulemode.Type_.Official
        = some false) ∧
    (Initialize Parsers.lenient (Host.ofEnv []) (FlagSet.ofList []) []
        State.init).1.customRuleModes rulemode.Type_.Official = none := by
  have w1 := (Initialize_official_invalid Parsers.lenient
    (Host.ofEnv [("ARDUINO_LINT_OFFICIAL", "maybe")]) (FlagSet.ofList []) [] State.init).1
    "maybe" (by decide) (by decide) rfl
  have w2 := (Initialize_official_invalid Parsers.lenient (Host.ofEnv [])
    (FlagSet.ofList []) [] State.init).2 (by decide)
  refine ⟨⟨?_, w1.2⟩, ?_⟩
  · rw [w1.1]
    decide
  · rw [w2]
    rfl

end configuration
